import Mathlib

/-!
Verification of `scripts/generate_terraform_zones.py` (Route53 Terraform
zone file generator) against its natural-language specification.

The script is embedded shallowly: Python strings become `String`
(sequences of code points, matching Python `str` semantics on the
material that actually occurs in this program), Python string methods
become executable Lean functions on `String.data`, and each function of
the script that the claims touch becomes a Lean definition transliterated
from the source.  File paths and the AWS client are external
collaborators; they are modelled by explicit parameters (`Option String`
for a file's current content, a `fetch` function for record listings).
-/

namespace R53

/-! ## Python string primitives -/

/-- Python whitespace for `str.strip()` and the regex class `\s`
(ASCII part; the generated documents only contain space, tab, LF, CR). -/
def isPyWs (c : Char) : Bool :=
  c == '\t' || c == ' ' || c == '\n' || c == '\r' || c == '\x0b' || c == '\x0c'

/-- `p` is a prefix of `l` (Python `str.startswith`, on char lists). -/
def isPrefixOfChars : List Char → List Char → Bool
  | [], _ => true
  | _ :: _, [] => false
  | x :: xs, y :: ys => x == y && isPrefixOfChars xs ys

/-- Python `s.startswith(pre)`. -/
def pyStartsWith (s pre : String) : Bool := isPrefixOfChars pre.data s.data

/-- Python `s.endswith(suf)`. -/
def pyEndsWith (s suf : String) : Bool := isPrefixOfChars suf.data.reverse s.data.reverse

/-- Python `s.strip(chars)` generalised over the character predicate. -/
def pyStripBy (p : Char → Bool) (s : String) : String :=
  ⟨((s.data.dropWhile p).reverse.dropWhile p).reverse⟩

/-- Python `s.strip()` (whitespace both ends). -/
def pyStrip (s : String) : String := pyStripBy isPyWs s

/-- Python `s.rstrip()` (whitespace at the right end). -/
def pyRstrip (s : String) : String := ⟨(s.data.reverse.dropWhile isPyWs).reverse⟩

/-- Python `s.strip(chr(34))`: strip double quotes at both ends. -/
def pyStripQuotes (s : String) : String := pyStripBy (· == '"') s

/-- Python `s.rstrip(chr(46))`: strip trailing dots. -/
def pyRstripDots (s : String) : String := ⟨(s.data.reverse.dropWhile (· == '.')).reverse⟩

/-- Python slice `s[:-k]` for `k ≥ 1` (truncated at the empty string). -/
def sliceDropEnd (s : String) (k : Nat) : String := ⟨s.data.take (s.data.length - k)⟩

/-- Python `s.replace(backslash-100, at-sign)`: left-to-right replacement
of every (non-overlapping) occurrence of the four characters
backslash, `1`, `0`, `0` by `@`. -/
def replace100 : List Char → List Char
  | '\\' :: '1' :: '0' :: '0' :: rest => '@' :: replace100 rest
  | c :: rest => c :: replace100 rest
  | [] => []

/-- String form of `replace100`. -/
def replaceBackslash100 (s : String) : String := ⟨replace100 s.data⟩

/-- Python `s.rsplit(chr(46), 1)[0]`: everything before the last dot
(`s` itself when there is no dot). -/
def rsplitDotHead (s : String) : String :=
  match s.data.reverse.dropWhile (· != '.') with
  | [] => s
  | _ :: rest => ⟨rest.reverse⟩

/-- Python `chr(10).join(lines)`. -/
def joinLines : List String → String
  | [] => ""
  | [l] => l
  | l :: rest => l ++ "\n" ++ joinLines rest

/-! ## C1 — relative record name

The same normalization snippet appears verbatim in
`generate_terraform_content` (source lines 567-582) and
`generate_import_blocks` (source lines 885-900); each is transliterated
separately below. -/

/-- Relative record name as computed in `generate_terraform_content`
(lines 567-582): suffix-strip against the zone name, then normalize apex
label encodings and suffixes. -/
def record_name_content (zone_name rec_name : String) : String :=
  let record_name :=
    if rec_name = zone_name then ""
    else if pyEndsWith rec_name ("." ++ zone_name) then
      sliceDropEnd rec_name (zone_name.length + 1)
    else rec_name
  if record_name ≠ "" then
    let record_name := replaceBackslash100 record_name
    if record_name = "@" then ""
    else if pyEndsWith record_name ".@" || pyEndsWith record_name ".\\100" then
      rsplitDotHead record_name
    else record_name
  else record_name

/-- Relative record name as computed in `generate_import_blocks`
(lines 885-900); the Python code there is a verbatim copy of the snippet
in `generate_terraform_content`. -/
def record_name_import (zone_name rec_name : String) : String :=
  let record_name :=
    if rec_name = zone_name then ""
    else if pyEndsWith rec_name ("." ++ zone_name) then
      sliceDropEnd rec_name (zone_name.length + 1)
    else rec_name
  if record_name ≠ "" then
    let record_name := replaceBackslash100 record_name
    if record_name = "@" then ""
    else if pyEndsWith record_name ".@" || pyEndsWith record_name ".\\100" then
      rsplitDotHead record_name
    else record_name
  else record_name

/-- RelativeRecordName as the specification words it: the owner name with
the zone's name suffix stripped (apex yields the empty string), then any
backslash-100 replaced by an at-sign, an at-sign result normalized to the
empty string, and a residual dot-at / dot-backslash-100 suffix truncated.
Unlike the code, the spec states the normalization without the
"only when non-empty" guard. -/
def relative_name_specified (zone_name rec_name : String) : String :=
  let base :=
    if rec_name = zone_name then ""
    else if pyEndsWith rec_name ("." ++ zone_name) then
      sliceDropEnd rec_name (zone_name.length + 1)
    else rec_name
  let base := replaceBackslash100 base
  if base = "@" then ""
  else if pyEndsWith base ".@" || pyEndsWith base ".\\100" then rsplitDotHead base
  else base

/-! ## C10 — sanitize_module_name -/

/-- The guard step of `sanitize_module_name` (source lines 93-95):
prepend an underscore when the name is empty or starts with something
that is neither a letter nor an underscore. -/
def sanitizeGuard (name : List Char) : List Char :=
  match name with
  | [] => ['_']
  | c :: rest => if c.isAlpha || c == '_' then c :: rest else '_' :: c :: rest

/-- `sanitize_module_name` (source lines 89-103): dots and hyphens to
underscores, a leading underscore when needed, then every character that
is not alphanumeric or an underscore replaced by an underscore.  Python
`isalpha`/`isalnum` are embedded by `Char.isAlpha`/`Char.isAlphanum`
(they agree on ASCII, which is all the generated Terraform identifiers
may contain anyway). -/
def sanitize_module_name (domain : String) : String :=
  ⟨(sanitizeGuard ((domain.data.map (fun ch => if ch = '.' then '_' else ch)).map
      (fun ch => if ch = '-' then '_' else ch))).map
    (fun ch => if ch.isAlphanum || ch == '_' then ch else '_')⟩

/-! ## C4 — TXT value escaping (source lines 599-608) -/

/-- Python `r.replace(backslash, backslash-backslash)`: double every
backslash (single-character pattern, so the replacement acts
character-wise). -/
def escBackslash (s : String) : String :=
  ⟨s.data.bind (fun c => if c = '\\' then ['\\', '\\'] else [c])⟩

/-- Python `r.replace(quote, backslash-quote)` applied after
`escBackslash` in the TXT branch. -/
def escQuote (s : String) : String :=
  ⟨s.data.bind (fun c => if c = '"' then ['\\', '"'] else [c])⟩

/-- The quote-stripping step of the TXT branch (source lines 604-605):
remove one layer of surrounding double quotes when the value both starts
and ends with one (Python slice `r[1:-1]`). -/
def strip_outer_quotes (s : String) : String :=
  if pyStartsWith s "\"" && pyEndsWith s "\"" then ⟨(s.data.drop 1).dropLast⟩ else s

/-- One formatted TXT value as emitted by `generate_terraform_content`
(source lines 603-608): strip one layer of quotes, escape backslash and
quote for the HCL string literal, re-quote. -/
def format_txt_value (r : String) : String :=
  "\"" ++ escQuote (escBackslash (strip_outer_quotes r)) ++ "\""

/-- Reversal of the literal escaping: a backslash consumes the following
character verbatim. -/
def unescapeLiteral : List Char → List Char
  | [] => []
  | [c] => [c]
  | c :: d :: rest =>
    if c = '\\' then d :: unescapeLiteral rest else c :: unescapeLiteral (d :: rest)

/-- Character-wise view of the composed escaping. -/
def escChar (c : Char) : List Char :=
  if c = '\\' then ['\\', '\\'] else if c = '"' then ['\\', '"'] else [c]

/-! ## Data model -/

/-- A hosted zone as produced by `list_hosted_zones` (source
lines 426-447): name has its trailing dot removed. -/
structure Zone where
  id : String
  name : String
  isPrivate : Bool
  comment : String
  resource_record_set_count : Int
deriving DecidableEq

/-- Alias data of a processed record (source lines 473-479). -/
structure AliasTarget where
  name : String
  zone_id : String
  evaluate_target_health : Bool
deriving DecidableEq

/-- A processed record as produced by `get_zone_records` (source
lines 461-481). -/
structure Record where
  name : String
  type : String
  ttl : Option Int
  records : List String
  aliasInfo : Option AliasTarget
deriving DecidableEq

/-- A session entry of `processed_zones` (source lines 706-712). -/
structure ZoneInfo where
  name : String
  id : String
  is_subdomain : Bool
  has_records : Bool
  existing : Bool
deriving DecidableEq

/-- A raw record set as returned by the AWS paginator, before
processing.  Field names mirror the AWS response keys. -/
structure RRSet where
  name : String
  type : String
  ttl : Option Int
  resourceRecords : Option (List String)
  aliasTarget : Option AliasTarget
deriving DecidableEq

/-! ## C9 — get_zone_records and record fetch failure -/

/-- The per-record-set body of the loop in `get_zone_records` (source
lines 456-481): apex NS/SOA record sets are skipped, alias records have
their TTL cleared, values default to the empty list. -/
def processRecordSet (zone_name : String) (rs : RRSet) : Option Record :=
  if (rs.type = "NS" ∨ rs.type = "SOA") ∧ pyRstripDots rs.name = zone_name then none
  else some
    { name := pyRstripDots rs.name
      type := rs.type
      ttl := match rs.aliasTarget with
        | some _ => none
        | none => rs.ttl
      records := rs.resourceRecords.getD []
      aliasInfo := rs.aliasTarget.map (fun a =>
        { name := pyRstripDots a.name
          zone_id := a.zone_id
          evaluate_target_health := a.evaluate_target_health }) }

/-- `get_zone_records` (source lines 449-486).  The paginator is
modelled as a list of page outcomes; a `ClientError` raised while
fetching a page stops the loop, the error is reported, and whatever was
accumulated up to that point is returned (the function does not
re-raise).  The second component is the reported error, if any. -/
def get_zone_records (zone_name : String) :
    List (Except String (List RRSet)) → List Record × Option String
  | [] => ([], none)
  | Except.error e :: _ => ([], some e)
  | Except.ok page :: rest =>
    let r := get_zone_records zone_name rest
    (page.filterMap (processRecordSet zone_name) ++ r.1, r.2)

/-- The pages successfully retrieved before the first failure. -/
def okPages : List (Except String (List RRSet)) → List (List RRSet)
  | [] => []
  | Except.error _ :: _ => []
  | Except.ok p :: rest => p :: okPages rest

/-- The first provider error hit while paginating, if any. -/
def firstPageError : List (Except String (List RRSet)) → Option String
  | [] => none
  | Except.error e :: _ => some e
  | Except.ok _ :: rest => firstPageError rest

/-- `is_subdomain` (source lines 488-493): linear scan of the zone
listing; the first zone whose name the domain strictly extends wins. -/
def is_subdomain (domain : String) : List Zone → Option String
  | [] => none
  | z :: rest =>
    if domain ≠ z.name ∧ pyEndsWith domain ("." ++ z.name) = true then some z.name
    else is_subdomain domain rest

/-- The Terraform module version constant (source line 37). -/
def TERRAFORM_MODULE_VERSION : String := "~> 5.0"

/-- The delegation-records block emitted for a subdomain in
`generate_terraform_content` (source lines 630-651).
`parent_module_name` is computed in the source but never used, so it
does not appear here. -/
def delegation_records_block (zone_name parent_zone : String) : List String :=
  let module_name := sanitize_module_name zone_name
  let subdomain_prefix := sliceDropEnd zone_name (parent_zone.length + 1)
  ["# Add NS records to the parent zone for delegation",
   "module \"" ++ module_name ++ "_delegation_records\" \x7b",
   "  source  = \"terraform-aws-modules/route53/aws//modules/records\"",
   "  version = \"" ++ TERRAFORM_MODULE_VERSION ++ "\"",
   "",
   "  zone_name = \"" ++ parent_zone ++ "\"",
   "",
   "  records = [",
   "    \x7b",
   "      name = \"" ++ subdomain_prefix ++ "\"",
   "      type = \"NS\"",
   "      ttl  = 300",
   "      records = module." ++ module_name
     ++ "_subdomain_zone.route53_zone_name_servers[\"" ++ zone_name ++ "\"]",
   "    \x7d",
   "  ]",
   "",
   "\x7d"]

/-! ## Import planning (`generate_import_blocks`, source lines 834-978) -/

/-- Zone module reference used for subdomain vs. top-level zones. -/
def zone_module_name (module_name : String) (is_sub : Bool) : String :=
  if is_sub then module_name ++ "_subdomain_zone" else module_name

/-- Records module reference used for subdomain vs. top-level zones. -/
def records_module_name (module_name : String) (is_sub : Bool) : String :=
  if is_sub then module_name ++ "_subdomain_zone_records" else module_name ++ "_records"

/-- The Terraform resource key of a record (source line 902). -/
def terraform_record_key (zone_name : String) (rec : Record) : String :=
  record_name_import zone_name rec.name ++ " " ++ rec.type

/-- The external import identifier of a record (source lines 904-908):
the zone id, the raw fully-qualified owner name with trailing dots
stripped and backslashes doubled for the HCL literal, and the type,
joined by underscores. -/
def record_import_identifier (zone_id : String) (rec : Record) : String :=
  zone_id ++ "_" ++ escBackslash (pyRstripDots rec.name) ++ "_" ++ rec.type

/-- The import block emitted for one hosted zone (source lines 870-879). -/
def zone_import_block (zi : ZoneInfo) : List String :=
  ["# Import hosted zone",
   "import \x7b",
   "  to = module.zones.module."
     ++ zone_module_name (sanitize_module_name zi.name) zi.is_subdomain
     ++ ".aws_route53_zone.this[\"" ++ zi.name ++ "\"]",
   "  id = \"" ++ zi.id ++ "\"",
   "\x7d",
   ""]

/-- The import block emitted for one record (source lines 883-919);
NS/SOA records are skipped. -/
def record_import_block (zi : ZoneInfo) (rec : Record) : List String :=
  if rec.type = "NS" ∨ rec.type = "SOA" then []
  else
    ["# Import record: " ++ terraform_record_key zi.name rec,
     "import \x7b",
     "  to = module.zones.module."
       ++ records_module_name (sanitize_module_name zi.name) zi.is_subdomain
       ++ ".aws_route53_record.this[\"" ++ terraform_record_key zi.name rec ++ "\"]",
     "  id = \"" ++ record_import_identifier zi.id rec ++ "\"",
     "\x7d",
     ""]

/-- The full `blocks` list built by `generate_import_blocks` (source
lines 854-919): per processed zone (skipping non-existing entries), its
zone block followed by the blocks of its fetched records. -/
def import_blocks_lines (fetch : String → String → List Record) :
    List ZoneInfo → List String
  | [] => []
  | zi :: rest =>
    (if zi.existing then
      zone_import_block zi ++ (fetch zi.id zi.name).bind (record_import_block zi)
    else []) ++ import_blocks_lines fetch rest

/-! ## C7 — ordering of emitted binding statements

`generate_import_commands` (source lines 736-832) prints the
human-instruction command sequence; each printed string is one element
of the emitted line list below.  `generate_import_blocks` (source
lines 846-978) writes the bindings file. -/

/-- Relative record name as computed in `generate_import_commands`
(source lines 789-803); again a verbatim copy of the snippet in
`generate_terraform_content`. -/
def record_name_command (zone_name rec_name : String) : String :=
  let record_name :=
    if rec_name = zone_name then ""
    else if pyEndsWith rec_name ("." ++ zone_name) then
      sliceDropEnd rec_name (zone_name.length + 1)
    else rec_name
  if record_name ≠ "" then
    let record_name := replaceBackslash100 record_name
    if record_name = "@" then ""
    else if pyEndsWith record_name ".@" || pyEndsWith record_name ".\\100" then
      rsplitDotHead record_name
    else record_name
  else record_name

/-- The zone import command printed for one zone (source lines 757-762). -/
def zone_import_command (zi : ZoneInfo) : String :=
  "   terraform import \x27module.zones.module."
    ++ zone_module_name (sanitize_module_name zi.name) zi.is_subdomain
    ++ ".aws_route53_zone.this[\"" ++ zi.name ++ "\"]\x27 " ++ zi.id

/-- The record import command printed for one record (source
lines 784-818); NS/SOA are skipped, and the import identifier here uses
the normalized relative name re-qualified against the zone name. -/
def record_import_command (zi : ZoneInfo) (rec : Record) : List String :=
  if rec.type = "NS" ∨ rec.type = "SOA" then []
  else
    let record_name := record_name_command zi.name rec.name
    let terraform_key := record_name ++ " " ++ rec.type
    let import_name := if record_name = "" then zi.name else record_name ++ "." ++ zi.name
    let import_identifier := zi.id ++ "_" ++ import_name ++ "_" ++ rec.type
    ["   terraform import \x27module.zones.module."
      ++ records_module_name (sanitize_module_name zi.name) zi.is_subdomain
      ++ ".aws_route53_record.this[\"" ++ terraform_key ++ "\"]\x27 " ++ import_identifier]

/-- The first loop of `generate_import_commands` (source lines 750-762):
one zone import command per existing processed zone, in order. -/
def import_commands_zone_loop : List ZoneInfo → List String
  | [] => []
  | zi :: rest =>
    (if zi.existing then [zone_import_command zi] else [])
      ++ import_commands_zone_loop rest

/-- The second loop of `generate_import_commands` (source
lines 767-818): per existing processed zone, a comment naming the zone
followed by its record import commands. -/
def import_commands_record_loop (fetch : String → String → List Record) :
    List ZoneInfo → List String
  | [] => []
  | zi :: rest =>
    (if zi.existing then
      ("\n   # Records for " ++ zi.name)
        :: (fetch zi.id zi.name).bind (record_import_command zi)
    else [])
      ++ import_commands_record_loop fetch rest

/-- Fixed text printed before the zone import commands (source
lines 741-748). -/
def import_commands_header : List String :=
  ["\n" ++ (⟨List.replicate 50 '='⟩ : String),
   "Terraform Import Commands:",
   (⟨List.replicate 50 '='⟩ : String),
   "\nRun these commands from the \x27root\x27 directory after reviewing the generated files:\n",
   "1. First initialize Terraform:",
   "   terraform init",
   "\n2. Import the zones:"]

/-- Fixed text printed after the record import commands (source
lines 820-832). -/
def import_commands_footer : List String :=
  ["\n4. After importing, run terraform plan to see what changes are needed:",
   "   terraform plan",
   "\n5. If everything looks good, apply the configuration:",
   "   terraform apply",
   "\nNotes:",
   "- The record import format follows terraform-aws-modules/route53 conventions:",
   "  * Terraform keys: \x27\x7brecord_name\x7d \x7brecord_type\x7d\x27 (empty name for apex records)",
   "  * Import identifiers: \x27zone_id_full_record_name_record_type\x27",
   "- NS and SOA records are typically skipped as they\x27re managed by AWS",
   "- You may need to escape quotes differently depending on your shell",
   "- Some records might fail to import if they have special characters - review manually",
   "- Use the verification commands above to check exact resource addresses"]

/-- The full ordered sequence of lines printed by
`generate_import_commands` (source lines 736-832). -/
def generate_import_commands_lines (fetch : String → String → List Record)
    (processed : List ZoneInfo) : List String :=
  if processed = [] then []
  else
    import_commands_header
    ++ import_commands_zone_loop processed
    ++ ["\n3. Import the DNS records:"]
    ++ import_commands_record_loop fetch processed
    ++ import_commands_footer

/-! ## C6 — deduplication of import blocks against an existing file -/

/-- Python `line.split(eq-sign, 1)[1]`: the text after the first equals
sign.  (Python raises on a line without one; the embedding is only
applied under guards that guarantee an equals sign is present.) -/
def afterFirstEq (s : String) : String :=
  ⟨(s.data.dropWhile (· != '=')).drop 1⟩

/-- Split a character list at every LF (the pieces between
separators, like `splitOn` with an LF separator). -/
def splitNl : List Char → List (List Char)
  | [] => [[]]
  | c :: rest =>
    if c = '\n' then [] :: splitNl rest
    else match splitNl rest with
      | [] => [[c]]
      | l :: ls => (c :: l) :: ls

/-- Python `s.splitlines()` for LF-separated text (the only separator
this generator ever emits): split at each LF, without the trailing empty
piece after a final newline, and empty for the empty string. -/
def pySplitLines (s : String) : List String :=
  if s = "" then []
  else if pyEndsWith s "\n" = true then
    ((splitNl s.data).map (fun l => (⟨l⟩ : String))).dropLast
  else (splitNl s.data).map (fun l => (⟨l⟩ : String))

/-- `_parse_existing_imports_to_addresses` (source lines 834-844): strip
each line, keep the right-hand side of lines that start with `to` and
contain an equals sign, with surrounding whitespace and quotes stripped.
The Python set is modelled as a list used only through membership. -/
def parse_existing_imports (content : String) : List String :=
  (pySplitLines content).filterMap (fun line =>
    let line := pyStrip line
    if pyStartsWith line "to" = true ∧ '=' ∈ line.data then
      some (pyStripQuotes (pyStrip (afterFirstEq line)))
    else none)

/-- The duplicate-filtering loop of `generate_import_blocks` (source
lines 941-967).  `buffer` and `current_to` mirror the Python locals; a
buffer still open when the lines run out is discarded, exactly as in the
source (the loop never flushes a dangling buffer). -/
def filter_new_blocks (existing : List String) :
    List String → List String → Option String → List String
  | [], _, _ => []
  | line :: rest, buffer, current_to =>
    if pyStartsWith line "import \x7b" = true then
      filter_new_blocks existing rest [line] none
    else if pyStartsWith line "  to =" = true then
      filter_new_blocks existing rest (buffer ++ [line]) (some (pyStrip (afterFirstEq line)))
    else if line = "\x7d" then
      (match current_to with
       | none => buffer ++ [line, ""]
       | some a => if pyStripQuotes a ∉ existing then buffer ++ [line, ""] else [])
      ++ filter_new_blocks existing rest [] none
    else if buffer ≠ [] then
      filter_new_blocks existing rest (buffer ++ [line]) current_to
    else
      line :: filter_new_blocks existing rest buffer current_to

/-- Final content decision of `generate_import_blocks` (source
lines 932-978), non-dry-run: with an existing file and no force, filter
the blocks against the parsed addresses and append; otherwise write the
blocks whole.  `none` means the function returned without writing. -/
def generate_import_blocks_content (fetch : String → String → List Record)
    (processed : List ZoneInfo) (existingFile : Option String) (force : Bool) :
    Option String :=
  if processed = [] then none
  else
    let blocks := import_blocks_lines fetch processed
    match existingFile, force with
    | some existing, false =>
      let addrs := parse_existing_imports existing
      let new_blocks := filter_new_blocks addrs blocks [] none
      some (if new_blocks ≠ [] then
          pyRstrip existing ++ "\n\n" ++ pyRstrip (joinLines new_blocks) ++ "\n"
        else existing)
    | _, _ => some (joinLines blocks)

/-- The target address of a zone's import binding. -/
def zone_to_addr (zi : ZoneInfo) : String :=
  "module.zones.module." ++ zone_module_name (sanitize_module_name zi.name) zi.is_subdomain
    ++ ".aws_route53_zone.this[\"" ++ zi.name ++ "\"]"

/-- The target address of a record's import binding. -/
def record_to_addr (zi : ZoneInfo) (rec : Record) : String :=
  "module.zones.module." ++ records_module_name (sanitize_module_name zi.name) zi.is_subdomain
    ++ ".aws_route53_record.this[\"" ++ terraform_record_key zi.name rec ++ "\"]"

/-- One comment-headed import block in normal form: comment, opener,
target line, id line, closer, blank. -/
def import_segment (comment addr idStr : String) : List String :=
  [comment, "import \x7b", "  to = " ++ addr, "  id = \"" ++ idStr ++ "\"", "\x7d", ""]

/-- The (comment, target address, id) triples of the blocks emitted for
a processed-zone list. -/
def import_triples (fetch : String → String → List Record) :
    List ZoneInfo → List (String × String × String)
  | [] => []
  | zi :: rest =>
    (if zi.existing then
      ("# Import hosted zone", zone_to_addr zi, zi.id)
        :: (fetch zi.id zi.name).bind (fun rec =>
          if rec.type = "NS" ∨ rec.type = "SOA" then []
          else [("# Import record: " ++ terraform_record_key zi.name rec,
                 record_to_addr zi rec, record_import_identifier zi.id rec)])
    else []) ++ import_triples fetch rest

/-- The address a to-line carries, as the filtering loop and the parser
both extract it. -/
def to_line_addr (line : String) : String := pyStripQuotes (pyStrip (afterFirstEq line))

/-! ## AggregateMerger — outputs parsing and the two update functions
(source lines 114-157, 159-185, 187-306, 308-359, 361-424) -/

/-- The literal `output` of the outputs-header regex. -/
def outLit : List Char := ['o', 'u', 't', 'p', 'u', 't']

/-- One attempted match of the regex `output`-whitespace-quote-name-quote
at the head of `l` (Python `re` semantics: the literal, a non-empty
greedy whitespace run, a quote, a non-empty greedy run of non-quote
characters, a closing quote).  Returns the capture and the remainder
after the match. -/
def matchOutputAt (l : List Char) : Option (List Char × List Char) :=
  if l.take 6 = outLit then
    let r := l.drop 6
    let w := r.takeWhile isPyWs
    let r2 := r.dropWhile isPyWs
    if w = [] then none
    else if r2.head? = some '"' then
      let r3 := r2.tail
      let cap := r3.takeWhile (· != '"')
      let r4 := r3.dropWhile (· != '"')
      if cap = [] then none
      else if r4.head? = some '"' then some (cap, r4.tail)
      else none
    else none
  else none

/-- Fuelled scan of `re.findall` for the output-header pattern: continue
after a match, else advance one character. -/
def findOutputsFuel : Nat → List Char → List (List Char)
  | 0, _ => []
  | _ + 1, [] => []
  | fuel + 1, c :: rest =>
    match matchOutputAt (c :: rest) with
    | some (cap, after) => cap :: findOutputsFuel fuel after
    | none => findOutputsFuel fuel rest

/-- `re.findall` of the output-header pattern over a document: every
captured name, left to right, non-overlapping. -/
def findOutputs (l : List Char) : List (List Char) := findOutputsFuel l.length l

/-- Python `s.find(sub)` helper: index of the first occurrence from `i`. -/
def findSubAux (needle : List Char) : List Char → Nat → Option Nat
  | [], i => if isPrefixOfChars needle [] = true then some i else none
  | c :: rest, i =>
    if isPrefixOfChars needle (c :: rest) = true then some i
    else findSubAux needle rest (i + 1)

/-- Python `s.find(sub)`: first index, `-1` when absent. -/
def pyFind (s sub : String) : Int :=
  match findSubAux sub.data s.data 0 with
  | some i => (i : Int)
  | none => -1

/-- All start positions of `needle` in the list, in order. -/
def subPositions (needle : List Char) : List Char → Nat → List Nat
  | [], i => if needle = [] then [i] else []
  | c :: rest, i =>
    (if isPrefixOfChars needle (c :: rest) = true then [i] else [])
      ++ subPositions needle rest (i + 1)

/-- Python `s.rfind(sub)`: last index, `-1` when absent. -/
def pyRfind (s sub : String) : Int :=
  match (subPositions sub.data s.data 0).getLast? with
  | some i => (i : Int)
  | none => -1

/-- Python slice `s[:k]`. -/
def strTake (s : String) (k : Nat) : String := ⟨s.data.take k⟩

/-- Python slice `s[k:]`. -/
def strDrop (s : String) (k : Nat) : String := ⟨s.data.drop k⟩

/-- Python `s[:k] + t + s[k:]`. -/
def strInsertAt (s : String) (k : Nat) (t : String) : String :=
  ⟨s.data.take k ++ t.data ++ s.data.drop k⟩

/-- Substring containment (used only to state the C3 counterexample). -/
def containsSub (needle : List Char) : List Char → Bool
  | [] => isPrefixOfChars needle []
  | c :: rest => isPrefixOfChars needle (c :: rest) || containsSub needle rest

/-- `generate_zone_output_block` (source lines 159-185). -/
def generate_zone_output_block (zone_name module_name : String)
    (is_subdomain has_records : Bool) : List String :=
  let output_name := sanitize_module_name zone_name
  let zone_module := zone_module_name module_name is_subdomain
  let records_module := records_module_name module_name is_subdomain
  ["# Output " ++ zone_name ++ " details",
   "output \"" ++ output_name ++ "\" \x7b",
   "  description = \"Details for " ++ zone_name ++ "\"",
   "  value = \x7b",
   "    zone_id      = module." ++ zone_module
     ++ ".route53_zone_zone_id[\"" ++ zone_name ++ "\"]",
   "    name_servers = module." ++ zone_module
     ++ ".route53_zone_name_servers[\"" ++ zone_name ++ "\"]",
   (if has_records then
      "    records      = module." ++ records_module ++ ".route53_record_name"
    else "    records      = \x7b\x7d"),
   "  \x7d",
   "\x7d"]

/-- One `all_zones` fragment (source lines 231-247 and 332-348; the two
copies in the source are identical). -/
def all_zones_entry (zone_name module_name : String)
    (is_subdomain has_records : Bool) : String :=
  let zone_module := zone_module_name module_name is_subdomain
  let records_module := records_module_name module_name is_subdomain
  joinLines
    ["    " ++ module_name ++ " = \x7b",
     "      zone_id      = module." ++ zone_module
       ++ ".route53_zone_zone_id[\"" ++ zone_name ++ "\"]",
     "      name_servers = module." ++ zone_module
       ++ ".route53_zone_name_servers[\"" ++ zone_name ++ "\"]",
     (if has_records then
        "      records      = module." ++ records_module ++ ".route53_record_name"
      else "      records      = \x7b\x7d"),
     "    \x7d"]

/-- `_generate_full_zones_outputs_file` (source lines 308-359). -/
def full_zones_outputs_file (zones : List ZoneInfo) : String :=
  joinLines
    ((zones.bind (fun zi =>
        generate_zone_output_block zi.name (sanitize_module_name zi.name)
          zi.is_subdomain zi.has_records ++ [""]))
      ++ ["# Combined output of all zones",
          "output \"all_zones\" \x7b",
          "  description = \"Combined information for all zones\"",
          "  value = \x7b",
          joinLines (zones.map (fun zi =>
            all_zones_entry zi.name (sanitize_module_name zi.name)
              zi.is_subdomain zi.has_records)),
          "  \x7d",
          "\x7d"])

/-- The used half of `parse_zones_outputs_file` (source lines 114-141):
the set of output names other than `all_zones`.  (The function also
parses the `all_zones` inner keys into `all_zones_content`, but nothing
in the update logic reads that value, so it is not modelled.) -/
def parse_zones_output_names (content : String) : List String :=
  (findOutputs content.data).filterMap (fun cap =>
    if (⟨cap⟩ : String) ≠ "all_zones" then some (⟨cap⟩ : String) else none)

/-- `update_zones_outputs_file` (source lines 187-306), non-dry-run.
`existingFile` is the current content of `zones/outputs.tf` (`none` when
the file is absent); the result is the newly written content, or `none`
when the function returns without writing. -/
def update_zones_outputs_file (existingFile : Option String)
    (processed : List ZoneInfo) : Option String :=
  if processed = [] then none
  else
    let existing_zones := parse_zones_output_names (existingFile.getD "")
    let zones_to_add := processed.filter
      (fun zi => sanitize_module_name zi.name ∉ existing_zones)
    if zones_to_add = [] then none
    else
      let new_output_blocks := zones_to_add.bind (fun zi =>
        generate_zone_output_block zi.name (sanitize_module_name zi.name)
          zi.is_subdomain zi.has_records ++ [""])
      let all_zones_additions := zones_to_add.map (fun zi =>
        all_zones_entry zi.name (sanitize_module_name zi.name)
          zi.is_subdomain zi.has_records)
      let existing_content := existingFile.getD ""
      some (if existing_content = "" then
          full_zones_outputs_file zones_to_add
        else
          let all_zones_pos := pyFind existing_content "output \"all_zones\""
          if all_zones_pos > 0 then
            let before_all_zones := pyRstrip (strTake existing_content all_zones_pos.toNat)
            let az_section := strDrop existing_content all_zones_pos.toNat
            let new_outputs := "\n\n" ++ pyRstrip (joinLines new_output_blocks) ++ "\n\n"
            let value_end := pyRfind az_section "  \x7d"
            let az_section := if value_end > 0 then
                all_zones_additions.foldl
                  (fun sec entry => strInsertAt sec value_end.toNat (entry ++ "\n"))
                  az_section
              else az_section
            before_all_zones ++ new_outputs ++ az_section
          else pyRstrip existing_content ++ "\n\n" ++ full_zones_outputs_file zones_to_add)

/-- `parse_root_outputs_file` (source lines 143-157): all output names. -/
def parse_root_output_names (content : String) : List String :=
  (findOutputs content.data).map (fun cap => (⟨cap⟩ : String))

/-- The bootstrap content used when `root/outputs.tf` is absent (source
lines 408-413). -/
def root_bootstrap : String :=
  "output \"zones\" \x7b\n  description = \"All Route53 zone information\"\n  value = module.zones.all_zones\n\x7d\n\n"

/-- The root output block of one zone (source lines 389-393). -/
def root_output_block (zi : ZoneInfo) : List String :=
  ["output \"" ++ sanitize_module_name zi.name ++ "_details\" \x7b",
   "  description = \"Details for " ++ zi.name ++ "\"",
   "  value = module.zones." ++ sanitize_module_name zi.name,
   "\x7d",
   ""]

/-- `update_root_outputs_file` (source lines 361-424), non-dry-run, same
conventions as `update_zones_outputs_file`. -/
def update_root_outputs_file (existingFile : Option String)
    (processed : List ZoneInfo) : Option String :=
  if processed = [] then none
  else
    let existing_outputs := parse_root_output_names (existingFile.getD "")
    let zones_to_add := processed.filter
      (fun zi => (sanitize_module_name zi.name ++ "_details") ∉ existing_outputs)
    if zones_to_add = [] then none
    else
      let new_outputs := zones_to_add.bind root_output_block
      let existing_content := match existingFile with
        | some c => c
        | none => root_bootstrap
      some (pyRstrip existing_content ++ "\n\n" ++ joinLines new_outputs)

/-- Safety of one scan position inside a fixed chunk: a match attempt
starting here fails within the chunk itself, for every continuation. -/
def suffixSafe (l : List Char) : Bool :=
  match l with
  | [] => true
  | c :: _ =>
    if c != 'o' then true
    else if l.length < 6 then !(isPrefixOfChars l outLit)
    else if !(decide (l.take 6 = outLit)) then true
    else
      match l.drop 6 with
      | [] => false
      | d :: r' =>
        if !(isPyWs d) then true
        else
          match (d :: r').dropWhile isPyWs with
          | [] => false
          | e :: _ => e != '"'

/-- Every position of the chunk is safe. -/
def chunkOpaque : List Char → Bool
  | [] => true
  | c :: rest => suffixSafe (c :: rest) && chunkOpaque rest

/-- Every line followed by a newline (the shape `joinLines` takes on a
proper prefix of the line list). -/
def linesGlue : List String → String
  | [] => ""
  | l :: rest => l ++ "\n" ++ linesGlue rest

/-- Decidable head condition on the continuation after a quote-free,
whitespace-free hole: the next character cannot start or complete an
output-header match together with the hole. -/
def nameSkipOk (k : List Char) : Bool :=
  match k.head? with
  | none => true
  | some c =>
    !(decide (c ∈ outLit)) &&
      (!(isPyWs c) ||
        (match (k.dropWhile isPyWs).head? with
         | none => true
         | some e => e != '"'))

theorem joinLines_cons_cons (l x : String) (xs : List String) :
    joinLines (l :: x :: xs) = l ++ "\n" ++ joinLines (x :: xs) := rfl

/-- C1: for every zone name and owner name, the relative record name used
in the emitted zone artifact and the one used in the import keys are
computed the same way, and both agree with the specification's
description of the normalization (suffix strip, backslash-100 to at-sign,
at-sign to empty, residual dot-at/dot-backslash-100 truncated); in
particular, for zone example.com, owner example.com yields the empty
string, owner www.example.com yields www, and the escaped-apex owner
backslash-100.example.com yields the empty string. -/
theorem C1_relative_record_name :
    (∀ zone_name rec_name : String,
        record_name_content zone_name rec_name = record_name_import zone_name rec_name ∧
        record_name_content zone_name rec_name = relative_name_specified zone_name rec_name) ∧
    record_name_content "example.com" "example.com" = "" ∧
    record_name_content "example.com" "www.example.com" = "www" ∧
    record_name_content "example.com" "\\100.example.com" = "" := by
  refine ⟨fun zone_name rec_name => ⟨rfl, ?_⟩, by decide, by decide, by decide⟩
  unfold record_name_content relative_name_specified
  by_cases h : (if rec_name = zone_name then ""
      else if pyEndsWith rec_name ("." ++ zone_name) then
        sliceDropEnd rec_name (zone_name.length + 1)
      else rec_name) = ""
  · rw [h]
    decide
  · simp only [h, if_neg, ne_eq, not_false_iff, if_true]

theorem sanitizeGuard_ne_nil (l : List Char) : sanitizeGuard l ≠ [] := by
  cases l with
  | nil => simp [sanitizeGuard]
  | cons c rest =>
    show (if c.isAlpha || c == '_' then c :: rest else '_' :: c :: rest) ≠ []
    by_cases hca : (c.isAlpha || c == '_') = true
    · rw [if_pos hca]; simp
    · rw [if_neg hca]; simp

theorem sanitizeGuard_head (l : List Char) (c : Char)
    (h : (sanitizeGuard l).head? = some c) : (c.isAlpha || c == '_') = true := by
  cases l with
  | nil =>
    have h2 : (['_'] : List Char).head? = some c := h
    simp only [List.head?_cons, Option.some.injEq] at h2
    subst h2; decide
  | cons c0 rest =>
    have h2 : (if c0.isAlpha || c0 == '_' then c0 :: rest else '_' :: c0 :: rest).head?
        = some c := h
    by_cases hca : (c0.isAlpha || c0 == '_') = true
    · rw [if_pos hca] at h2
      simp only [List.head?_cons, Option.some.injEq] at h2
      subst h2; exact hca
    · rw [if_neg hca] at h2
      simp only [List.head?_cons, Option.some.injEq] at h2
      subst h2; decide

theorem sanitizeGuard_get (l : List Char) (i : Nat) (x : Char)
    (h : l.get? i = some x) :
    (sanitizeGuard l).get? (i + ((sanitizeGuard l).length - l.length)) = some x := by
  cases l with
  | nil => exact absurd h (by simp)
  | cons c0 rest =>
    show (if c0.isAlpha || c0 == '_' then c0 :: rest else '_' :: c0 :: rest).get?
        (i + ((if c0.isAlpha || c0 == '_' then c0 :: rest else '_' :: c0 :: rest).length
          - (c0 :: rest).length)) = some x
    by_cases hca : (c0.isAlpha || c0 == '_') = true
    · rw [if_pos hca]
      rw [Nat.sub_self, Nat.add_zero]
      exact h
    · rw [if_neg hca]
      have hone : ('_' :: c0 :: rest).length - (c0 :: rest).length = 1 := by
        simp
      rw [hone, List.get?_cons_succ]
      exact h

theorem sanitize_char_ok (ch : Char) :
    ((if ch.isAlphanum || ch == '_' then ch else '_').isAlphanum
      || (if ch.isAlphanum || ch == '_' then ch else '_') == '_') = true := by
  by_cases h : (ch.isAlphanum || ch == '_') = true
  · rw [if_pos h]; exact h
  · rw [if_neg h]; decide

/-- Characters of a sanitized module name are alphanumeric or underscore. -/
theorem sanitize_module_name_chars (domain : String) :
    ∀ c ∈ (sanitize_module_name domain).data, (c.isAlphanum || c == '_') = true := by
  intro c hc
  unfold sanitize_module_name at hc
  simp only [List.mem_map] at hc
  obtain ⟨ch, -, rfl⟩ := hc
  exact sanitize_char_ok ch

/-- A sanitized module name is never empty. -/
theorem sanitize_module_name_ne_empty (domain : String) :
    sanitize_module_name domain ≠ "" := by
  unfold sanitize_module_name
  intro h
  have hd : (sanitizeGuard ((domain.data.map (fun ch => if ch = '.' then '_' else ch)).map
      (fun ch => if ch = '-' then '_' else ch))).map
      (fun ch => if ch.isAlphanum || ch == '_' then ch else '_') = ([] : List Char) :=
    congrArg String.data h
  exact sanitizeGuard_ne_nil _ (List.map_eq_nil_iff.mp hd)

/-- C10: for every input string, `sanitize_module_name` returns a
non-empty string whose first character is a letter or an underscore and
all of whose characters are alphanumeric or underscores, and every dot
and hyphen of the input is replaced by an underscore at the
corresponding output position (shifted by one when a leading underscore
was prepended).  The function is a total Lean definition, hence total
and deterministic. -/
theorem C10_sanitize_module_name :
    ∀ domain : String,
      sanitize_module_name domain ≠ "" ∧
      (∀ c, (sanitize_module_name domain).data.head? = some c →
        (c.isAlpha || c == '_') = true) ∧
      (∀ c ∈ (sanitize_module_name domain).data, (c.isAlphanum || c == '_') = true) ∧
      (∀ i : Nat, (domain.data.get? i = some '.' ∨ domain.data.get? i = some '-') →
        (sanitize_module_name domain).data.get?
          (i + ((sanitize_module_name domain).length - domain.length)) = some '_') := by
  intro domain
  refine ⟨sanitize_module_name_ne_empty domain, ?_, sanitize_module_name_chars domain, ?_⟩
  · intro c hc
    unfold sanitize_module_name at hc
    rw [List.head?_map] at hc
    rcases ho : (sanitizeGuard ((domain.data.map (fun ch => if ch = '.' then '_' else ch)).map
        (fun ch => if ch = '-' then '_' else ch))).head? with _ | d
    · rw [ho] at hc; exact absurd hc (by simp)
    · rw [ho] at hc
      have hc2 : (if d.isAlphanum || d == '_' then d else '_') = c := Option.some.inj hc
      have hd := sanitizeGuard_head _ _ ho
      subst hc2
      rcases Bool.or_eq_true_iff.mp hd with h | h
      · have halnum : (d.isAlphanum || d == '_') = true := by
          unfold Char.isAlphanum; rw [h]; rfl
        rw [if_pos halnum]; exact hd
      · have hd0 : d = '_' := beq_iff_eq.mp h
        subst hd0; decide
  · intro i hi
    have hmid : ((domain.data.map (fun ch => if ch = '.' then '_' else ch)).map
        (fun ch => if ch = '-' then '_' else ch)).get? i = some '_' := by
      rw [List.get?_map, List.get?_map]
      rcases hi with h | h <;> rw [h] <;> rfl
    have hguard := sanitizeGuard_get _ i '_' hmid
    unfold sanitize_module_name
    have hlenEq : ((⟨(sanitizeGuard ((domain.data.map (fun ch => if ch = '.' then '_' else ch)).map
          (fun ch => if ch = '-' then '_' else ch))).map
          (fun ch => if ch.isAlphanum || ch == '_' then ch else '_')⟩ : String)).length
        - domain.length
        = (sanitizeGuard ((domain.data.map (fun ch => if ch = '.' then '_' else ch)).map
          (fun ch => if ch = '-' then '_' else ch))).length
        - ((domain.data.map (fun ch => if ch = '.' then '_' else ch)).map
          (fun ch => if ch = '-' then '_' else ch)).length := by
      show (List.map _ _).length - domain.data.length = _
      rw [List.length_map, List.length_map, List.length_map]
    rw [hlenEq, List.get?_map, hguard]
    rfl

/-- C10 witness: instantiation at the concrete input 9ex.a-b (starts with
a digit, contains a dot and a hyphen). -/
theorem C10_sanitize_module_name_witness :
    sanitize_module_name "9ex.a-b" ≠ "" ∧
    (sanitize_module_name "9ex.a-b").data.get?
      (3 + ((sanitize_module_name "9ex.a-b").length - ("9ex.a-b" : String).length))
      = some '_' := by
  refine ⟨(C10_sanitize_module_name "9ex.a-b").1, ?_⟩
  exact (C10_sanitize_module_name "9ex.a-b").2.2.2 3 (Or.inl (by decide))

theorem bind_cons_chars (c : Char) (l : List Char) (f : Char → List Char) :
    (c :: l).bind f = f c ++ l.bind f := rfl

theorem bind_append_chars (a b : List Char) (f : Char → List Char) :
    (a ++ b).bind f = a.bind f ++ b.bind f := by
  induction a with
  | nil => rfl
  | cons c rest ih =>
    rw [List.cons_append, bind_cons_chars, bind_cons_chars, ih, List.append_assoc]

theorem escBoth_data (s : String) :
    (escQuote (escBackslash s)).data = s.data.bind escChar := by
  show (s.data.bind (fun c => if c = '\\' then ['\\', '\\'] else [c])).bind
      (fun c => if c = '"' then ['\\', '"'] else [c]) = s.data.bind escChar
  induction s.data with
  | nil => rfl
  | cons c rest ih =>
    rw [bind_cons_chars, bind_append_chars, ih, bind_cons_chars]
    congr 1
    by_cases h1 : c = '\\'
    · subst h1; rfl
    · rw [if_neg h1]
      by_cases h2 : c = '"'
      · subst h2; rfl
      · rw [bind_cons_chars]
        show (if c = '"' then ['\\', '"'] else [c]) ++ [] = escChar c
        rw [if_neg h2, escChar, if_neg h1, if_neg h2]
        rfl

theorem unescape_bind_escChar (l : List Char) :
    unescapeLiteral (l.bind escChar) = l := by
  induction l with
  | nil => rfl
  | cons c rest ih =>
    rw [bind_cons_chars]
    by_cases h1 : c = '\\'
    · subst h1
      show '\\' :: unescapeLiteral (rest.bind escChar) = '\\' :: rest
      rw [ih]
    · by_cases h2 : c = '"'
      · subst h2
        show '"' :: unescapeLiteral (rest.bind escChar) = '"' :: rest
        rw [ih]
      · have he : escChar c = [c] := by rw [escChar, if_neg h1, if_neg h2]
        rw [he, List.singleton_append]
        cases hr : rest.bind escChar with
        | nil =>
          have hrn : rest = [] := by
            cases rest with
            | nil => rfl
            | cons d tl =>
              exfalso
              rw [bind_cons_chars] at hr
              have hne : escChar d ≠ [] := by
                unfold escChar
                by_cases hd1 : d = '\\'
                · rw [if_pos hd1]; simp
                · rw [if_neg hd1]
                  by_cases hd2 : d = '"'
                  · rw [if_pos hd2]; simp
                  · rw [if_neg hd2]; simp
              exact hne (List.append_eq_nil.mp hr).1
          subst hrn
          rfl
        | cons d tl =>
          show (if c = '\\' then d :: unescapeLiteral tl
              else c :: unescapeLiteral (d :: tl)) = c :: rest
          rw [if_neg h1, ← hr, ih]

/-- C4: for every TXT record value, the emitted literal is exactly the
quote-stripped value escaped by doubling backslashes and prefixing
quotes with a backslash, surrounded by quotes; the escaping is injective
and reversing it on the emitted literal body recovers the quote-stripped
underlying characters exactly, for every input string. -/
theorem C4_txt_escaping_roundtrip :
    (∀ v : String,
        format_txt_value v = "\"" ++ escQuote (escBackslash (strip_outer_quotes v)) ++ "\"") ∧
    (∀ v : String,
        unescapeLiteral (escQuote (escBackslash (strip_outer_quotes v))).data
          = (strip_outer_quotes v).data) ∧
    (∀ s t : String, escQuote (escBackslash s) = escQuote (escBackslash t) → s = t) := by
  refine ⟨fun v => rfl, fun v => ?_, fun s t h => ?_⟩
  · rw [escBoth_data, unescape_bind_escChar]
  · have hdata : (escQuote (escBackslash s)).data = (escQuote (escBackslash t)).data := by
      rw [h]
    rw [escBoth_data, escBoth_data] at hdata
    have hs := unescape_bind_escChar s.data
    have ht := unescape_bind_escChar t.data
    rw [hdata, ht] at hs
    cases s with
    | mk sd =>
      cases t with
      | mk td =>
        exact congrArg String.mk hs.symm

/-- C4 witness: round trip and injectivity instantiated at a TXT value
containing both a double quote and a backslash. -/
theorem C4_txt_escaping_roundtrip_witness :
    unescapeLiteral (escQuote (escBackslash (strip_outer_quotes "\"v=1; a\\\"b\""))).data
      = (strip_outer_quotes "\"v=1; a\\\"b\"").data ∧
    ("x\\y" : String) = "x\\y" := by
  exact ⟨C4_txt_escaping_roundtrip.2.1 "\"v=1; a\\\"b\"",
    C4_txt_escaping_roundtrip.2.2 "x\\y" "x\\y" rfl⟩

/-- C9 counterexample: a provider error on the second page of the record
listing.  The failure is reported, but retrieval returns the first
page's record — not an empty record set as the claim states. -/
theorem C9_counterexample :
    (get_zone_records "example.com"
        [Except.ok [{ name := "api.example.com.", type := "A", ttl := some 300,
                      resourceRecords := some ["1.2.3.4"], aliasTarget := none }],
         Except.error "Throttling"]).2 = some "Throttling" ∧
    (get_zone_records "example.com"
        [Except.ok [{ name := "api.example.com.", type := "A", ttl := some 300,
                      resourceRecords := some ["1.2.3.4"], aliasTarget := none }],
         Except.error "Throttling"]).1
      = [{ name := "api.example.com", type := "A", ttl := some 300,
           records := ["1.2.3.4"], aliasInfo := none }] := by
  exact ⟨rfl, by decide⟩

/-- C9 (amended): when listing a zone's records fails with a provider
error, the failure is reported and retrieval returns normally with
exactly the records accumulated from the pages fetched before the
failure — the empty set precisely when the failure hits before the first
page — so the zone is still processed and the batch continues. -/
theorem C9_record_fetch_failure :
    ∀ (zone_name : String) (pages : List (Except String (List RRSet))),
      (get_zone_records zone_name pages).1
          = (okPages pages).join.filterMap (processRecordSet zone_name) ∧
      (get_zone_records zone_name pages).2 = firstPageError pages ∧
      (∀ e rest, pages = Except.error e :: rest →
        (get_zone_records zone_name pages).1 = [] ∧
        (get_zone_records zone_name pages).2 = some e) := by
  intro zone_name pages
  induction pages with
  | nil => exact ⟨rfl, rfl, fun e rest h => by cases h⟩
  | cons p rest ih =>
    cases p with
    | error e =>
      refine ⟨rfl, rfl, fun e2 rest2 h => ?_⟩
      have : e = e2 := by injection h with h1 _; injection h1
      subst this
      exact ⟨rfl, rfl⟩
    | ok page =>
      refine ⟨?_, ?_, fun e2 rest2 h => by cases h⟩
      · show page.filterMap (processRecordSet zone_name) ++ (get_zone_records zone_name rest).1
            = (page ++ (okPages rest).join).filterMap (processRecordSet zone_name)
        rw [List.filterMap_append, ih.1]
      · exact ih.2.1

/-- C9 amended witness: first-page failure yields the empty record set
and the reported error. -/
theorem C9_record_fetch_failure_witness :
    (get_zone_records "example.com" [Except.error "AccessDenied"]).1 = [] ∧
    (get_zone_records "example.com" [Except.error "AccessDenied"]).2
      = some "AccessDenied" :=
  (C9_record_fetch_failure "example.com" [Except.error "AccessDenied"]).2.2
    "AccessDenied" [] rfl

/-! ## C8 — subdomain detection and delegation record -/

theorem isPrefixOfChars_iff (p l : List Char) :
    isPrefixOfChars p l = true ↔ p <+: l := by
  induction p generalizing l with
  | nil => simp [isPrefixOfChars]
  | cons a as ih =>
    cases l with
    | nil =>
      rw [isPrefixOfChars]
      simp
    | cons b bs =>
      rw [isPrefixOfChars, Bool.and_eq_true, beq_iff_eq, ih, List.cons_prefix_cons]

theorem pyEndsWith_iff (s t : String) :
    pyEndsWith s t = true ↔ t.data <:+ s.data := by
  rw [pyEndsWith, isPrefixOfChars_iff, List.reverse_prefix]

/-- Stripping the length of a verified suffix recovers the remaining
prefix: the inverse direction of the Python slice used for subdomain
prefixes. -/
theorem endsWith_reconstruct (s t : String) (h : pyEndsWith s t = true) :
    sliceDropEnd s t.length ++ t = s := by
  obtain ⟨pre, hpre⟩ := (pyEndsWith_iff s t).mp h
  show (⟨s.data.take (s.data.length - t.length) ++ t.data⟩ : String) = s
  have hlen : s.data.length - t.data.length = pre.length := by
    rw [← hpre, List.length_append]; omega
  have htake : s.data.take (s.data.length - t.length) = pre := by
    show s.data.take (s.data.length - t.data.length) = pre
    rw [hlen, ← hpre, List.take_left]
  rw [htake, hpre]

theorem is_subdomain_some (domain : String) (zones : List Zone) (P : String)
    (h : is_subdomain domain zones = some P) :
    domain ≠ P ∧ pyEndsWith domain ("." ++ P) = true := by
  induction zones with
  | nil => cases h
  | cons z rest ih =>
    by_cases hz : domain ≠ z.name ∧ pyEndsWith domain ("." ++ z.name) = true
    · have : is_subdomain domain (z :: rest) = some z.name := by
        show (if domain ≠ z.name ∧ pyEndsWith domain ("." ++ z.name) = true
            then some z.name else is_subdomain domain rest) = some z.name
        rw [if_pos hz]
      rw [this] at h
      have hPz : z.name = P := Option.some.inj h
      subst hPz
      exact hz
    · have : is_subdomain domain (z :: rest) = is_subdomain domain rest := by
        show (if domain ≠ z.name ∧ pyEndsWith domain ("." ++ z.name) = true
            then some z.name else is_subdomain domain rest) = _
        rw [if_neg hz]
      rw [this] at h
      exact ih h

/-- C8: for every zone detected as a subdomain with parent P, the
delegation block emitted into the parent's record namespace carries an
NS record whose relative name is the zone's name with the suffix
dot-P removed (witnessed by the reconstruction equation
`prefix ++ (dot P) = zone name`) and whose TTL is the constant 300; in
particular, for parent example.com and subdomain dev.example.com the
relative name is dev. -/
theorem C8_subdomain_delegation :
    (∀ (domain : String) (zones : List Zone) (P : String),
        is_subdomain domain zones = some P →
        sliceDropEnd domain (P.length + 1) ++ ("." ++ P) = domain ∧
        ("      name = \"" ++ sliceDropEnd domain (P.length + 1) ++ "\"")
            ∈ delegation_records_block domain P ∧
        "      type = \"NS\"" ∈ delegation_records_block domain P ∧
        "      ttl  = 300" ∈ delegation_records_block domain P) ∧
    sliceDropEnd "dev.example.com" (("example.com" : String).length + 1) = "dev" := by
  refine ⟨fun domain zones P h => ?_, by decide⟩
  have hz := is_subdomain_some domain zones P h
  have hlen : ("." ++ P).length = P.length + 1 := by
    show ('.' :: P.data).length = P.data.length + 1
    rw [List.length_cons]
  have hrec := endsWith_reconstruct domain ("." ++ P) hz.2
  rw [hlen] at hrec
  refine ⟨hrec, ?_, ?_, ?_⟩
  · unfold delegation_records_block
    simp
  · unfold delegation_records_block
    simp
  · unfold delegation_records_block
    simp

/-- C8 witness: a concrete zone listing in which dev.example.com is
detected as a subdomain of example.com, instantiating the theorem. -/
theorem C8_subdomain_delegation_witness :
    sliceDropEnd "dev.example.com" (("example.com" : String).length + 1)
        ++ ("." ++ "example.com") = "dev.example.com" ∧
    "      ttl  = 300" ∈ delegation_records_block "dev.example.com" "example.com" := by
  have h := C8_subdomain_delegation.1 "dev.example.com"
    [{ id := "Z0", name := "example.com", isPrivate := false, comment := "",
       resource_record_set_count := 2 }]
    "example.com" (by decide)
  exact ⟨h.1, h.2.2.2⟩

theorem unescape_escBackslash (l : List Char) :
    unescapeLiteral (l.bind (fun c => if c = '\\' then ['\\', '\\'] else [c])) = l := by
  induction l with
  | nil => rfl
  | cons c rest ih =>
    rw [bind_cons_chars]
    by_cases h1 : c = '\\'
    · subst h1
      show '\\' :: unescapeLiteral (rest.bind _) = '\\' :: rest
      rw [ih]
    · rw [if_neg h1, List.singleton_append]
      cases hr : rest.bind (fun c => if c = '\\' then ['\\', '\\'] else [c]) with
      | nil =>
        have hrn : rest = [] := by
          cases rest with
          | nil => rfl
          | cons d tl =>
            exfalso
            rw [bind_cons_chars] at hr
            have hne : (if d = '\\' then ['\\', '\\'] else [d]) ≠ [] := by
              by_cases hd1 : d = '\\'
              · rw [if_pos hd1]; simp
              · rw [if_neg hd1]; simp
            exact hne (List.append_eq_nil.mp hr).1
        subst hrn
        rfl
      | cons d tl =>
        show (if c = '\\' then d :: unescapeLiteral tl
            else c :: unescapeLiteral (d :: tl)) = c :: rest
        rw [if_neg h1, ← hr, ih]

/-- C5: the import binding's external identifier is exactly the zone id,
an underscore, the record's raw fully-qualified owner name with trailing
dots stripped (backslashes doubled for the HCL literal, so a
backslash-100 apex label is preserved rather than collapsed), an
underscore, and the type; the backslash doubling is reversible, and the
identifier appears verbatim in the emitted import block.  Concretely,
zone id Z1, owner api.example.com, type A yields Z1_api.example.com_A. -/
theorem C5_import_identifier :
    (∀ (zone_id : String) (rec : Record),
        record_import_identifier zone_id rec
          = zone_id ++ "_" ++ escBackslash (pyRstripDots rec.name) ++ "_" ++ rec.type) ∧
    (∀ rec : Record,
        unescapeLiteral (escBackslash (pyRstripDots rec.name)).data
          = (pyRstripDots rec.name).data) ∧
    record_import_identifier "Z1"
        { name := "api.example.com", type := "A", ttl := some 300,
          records := ["1.2.3.4"], aliasInfo := none }
      = "Z1_api.example.com_A" ∧
    record_import_identifier "Z1"
        { name := "\\100.example.com", type := "TXT", ttl := some 300,
          records := ["v"], aliasInfo := none }
      = "Z1_\\\\100.example.com_TXT" ∧
    ("  id = \"Z1_api.example.com_A\"" ∈ record_import_block
        { name := "example.com", id := "Z1", is_subdomain := false,
          has_records := true, existing := true }
        { name := "api.example.com", type := "A", ttl := some 300,
          records := ["1.2.3.4"], aliasInfo := none }) := by
  refine ⟨fun zone_id rec => rfl, fun rec => unescape_escBackslash _, by decide, by decide, ?_⟩
  decide

theorem import_commands_zone_loop_eq (processed : List ZoneInfo) :
    import_commands_zone_loop processed
      = (processed.filter (·.existing)).map zone_import_command := by
  induction processed with
  | nil => rfl
  | cons zi rest ih =>
    show (if zi.existing then [zone_import_command zi] else [])
        ++ import_commands_zone_loop rest = _
    rw [ih, List.filter_cons]
    cases h : zi.existing with
    | true => simp
    | false => simp

theorem import_commands_record_loop_eq (fetch : String → String → List Record)
    (processed : List ZoneInfo) :
    import_commands_record_loop fetch processed
      = (processed.filter (·.existing)).bind (fun zi =>
          ("\n   # Records for " ++ zi.name)
            :: (fetch zi.id zi.name).bind (record_import_command zi)) := by
  induction processed with
  | nil => rfl
  | cons zi rest ih =>
    show (if zi.existing then
        ("\n   # Records for " ++ zi.name)
          :: (fetch zi.id zi.name).bind (record_import_command zi)
      else []) ++ import_commands_record_loop fetch rest = _
    rw [ih, List.filter_cons]
    cases h : zi.existing with
    | true => simp [bind_cons_chars]
    | false => simp

theorem import_blocks_lines_eq (fetch : String → String → List Record)
    (processed : List ZoneInfo) :
    import_blocks_lines fetch processed
      = (processed.filter (·.existing)).bind (fun zi =>
          zone_import_block zi ++ (fetch zi.id zi.name).bind (record_import_block zi)) := by
  induction processed with
  | nil => rfl
  | cons zi rest ih =>
    show (if zi.existing then
        zone_import_block zi ++ (fetch zi.id zi.name).bind (record_import_block zi)
      else []) ++ import_blocks_lines fetch rest = _
    rw [ih, List.filter_cons]
    cases h : zi.existing with
    | true => simp
    | false => simp

/-- C7 counterexample: with two processed zones of one record each, the
bindings-file emission interleaves — the record binding of the first
zone (line index 8) precedes the zone binding of the second zone (line
index 14) — so it is false that all zone bindings come before all record
bindings in the emitted binding-statement sequence. -/
theorem C7_counterexample :
    (import_blocks_lines
        (fun id _ => if id = "Z1"
          then [{ name := "www.a.com", type := "A", ttl := some 300,
                  records := ["1.1.1.1"], aliasInfo := none }]
          else [{ name := "www.b.com", type := "A", ttl := some 300,
                  records := ["2.2.2.2"], aliasInfo := none }])
        [{ name := "a.com", id := "Z1", is_subdomain := false,
           has_records := true, existing := true },
         { name := "b.com", id := "Z2", is_subdomain := false,
           has_records := true, existing := true }]).get? 8
      = some "  to = module.zones.module.a_com_records.aws_route53_record.this[\"www A\"]" ∧
    (import_blocks_lines
        (fun id _ => if id = "Z1"
          then [{ name := "www.a.com", type := "A", ttl := some 300,
                  records := ["1.1.1.1"], aliasInfo := none }]
          else [{ name := "www.b.com", type := "A", ttl := some 300,
                  records := ["2.2.2.2"], aliasInfo := none }])
        [{ name := "a.com", id := "Z1", is_subdomain := false,
           has_records := true, existing := true },
         { name := "b.com", id := "Z2", is_subdomain := false,
           has_records := true, existing := true }]).get? 14
      = some "  to = module.zones.module.b_com.aws_route53_zone.this[\"b.com\"]" := by
  exact ⟨by decide, by decide⟩

/-- C7 (amended): in the human-instruction emission
(`generate_import_commands`) the claimed ordering holds — after the
fixed header, all zone bindings come first in processed order, then all
record bindings grouped by zone in processed order, each group preceded
by a comment naming its zone.  In the bindings-file emission
(`generate_import_blocks`) the statements are instead grouped per zone
in processed order: each zone's binding is immediately followed by that
zone's record bindings (zone bindings do not all come first there; see
the counterexample). -/
theorem C7_binding_order :
    ∀ (fetch : String → String → List Record) (processed : List ZoneInfo),
      (processed ≠ [] →
        generate_import_commands_lines fetch processed
          = import_commands_header
            ++ (processed.filter (·.existing)).map zone_import_command
            ++ ["\n3. Import the DNS records:"]
            ++ (processed.filter (·.existing)).bind (fun zi =>
                ("\n   # Records for " ++ zi.name)
                  :: (fetch zi.id zi.name).bind (record_import_command zi))
            ++ import_commands_footer) ∧
      import_blocks_lines fetch processed
        = (processed.filter (·.existing)).bind (fun zi =>
            zone_import_block zi
              ++ (fetch zi.id zi.name).bind (record_import_block zi)) := by
  intro fetch processed
  refine ⟨fun hne => ?_, import_blocks_lines_eq fetch processed⟩
  unfold generate_import_commands_lines
  rw [if_neg hne, import_commands_zone_loop_eq, import_commands_record_loop_eq]

/-- C7 amended witness: the decomposition instantiated at one concrete
zone with one record. -/
theorem C7_binding_order_witness :
    generate_import_commands_lines
        (fun _ _ => [{ name := "www.a.com", type := "A", ttl := some 300,
                       records := ["1.1.1.1"], aliasInfo := none }])
        [{ name := "a.com", id := "Z1", is_subdomain := false,
           has_records := true, existing := true }]
      = import_commands_header
        ++ [zone_import_command
              { name := "a.com", id := "Z1", is_subdomain := false,
                has_records := true, existing := true }]
        ++ ["\n3. Import the DNS records:"]
        ++ ["\n   # Records for a.com",
            "   terraform import \x27module.zones.module.a_com_records.aws_route53_record.this[\"www A\"]\x27 Z1_www.a.com_A"]
        ++ import_commands_footer := by
  have h := (C7_binding_order
      (fun _ _ => [{ name := "www.a.com", type := "A", ttl := some 300,
                     records := ["1.1.1.1"], aliasInfo := none }])
      [{ name := "a.com", id := "Z1", is_subdomain := false,
         has_records := true, existing := true }]).1 (by decide)
  rw [h]
  decide

theorem str_ext {s t : String} (h : s.data = t.data) : s = t := by
  cases s; cases t; cases h; rfl

theorem listBind_append {α β : Type} (a b : List α) (f : α → List β) :
    (a ++ b).bind f = a.bind f ++ b.bind f := by
  induction a with
  | nil => rfl
  | cons c rest ih =>
    show f c ++ (rest ++ b).bind f = (f c ++ rest.bind f) ++ b.bind f
    rw [ih, List.append_assoc]

theorem isPrefixOfChars_cons_ne {a b : Char} (as bs : List Char) (h : a ≠ b) :
    isPrefixOfChars (a :: as) (b :: bs) = false := by
  show ((a == b) && isPrefixOfChars as bs) = false
  have : (a == b) = false := beq_eq_false_iff_ne.mpr h
  rw [this, Bool.false_and]

theorem pyStartsWith_false_head {s pat : String} {c0 c1 : Char} {tl ptl : List Char}
    (hs : s.data = c1 :: tl) (hp : pat.data = c0 :: ptl) (h : c0 ≠ c1) :
    pyStartsWith s pat = false := by
  unfold pyStartsWith
  rw [hs, hp]
  exact isPrefixOfChars_cons_ne _ _ h

theorem str_ne_of_head {s t : String} {c0 c1 : Char} {tl0 tl1 : List Char}
    (hs : s.data = c0 :: tl0) (ht : t.data = c1 :: tl1) (h : c0 ≠ c1) : s ≠ t := by
  intro he
  rw [he, ht] at hs
  exact h (List.head_eq_of_cons_eq hs.symm)

/-- Heads of a string whose data starts with a hash. -/
theorem head_data_of_head? {s : String} {c : Char} (h : s.data.head? = some c) :
    ∃ tl, s.data = c :: tl := by
  cases hd : s.data with
  | nil => rw [hd] at h; cases h
  | cons c0 tl =>
    rw [hd] at h
    have : c0 = c := Option.some.inj h
    subst this
    exact ⟨tl, rfl⟩

/-! Step equations for the filtering loop. -/

theorem fnb_cons (existing : List String) (line : String) (rest buffer : List String)
    (cur : Option String) :
    filter_new_blocks existing (line :: rest) buffer cur
      = if pyStartsWith line "import \x7b" = true then
          filter_new_blocks existing rest [line] none
        else if pyStartsWith line "  to =" = true then
          filter_new_blocks existing rest (buffer ++ [line])
            (some (pyStrip (afterFirstEq line)))
        else if line = "\x7d" then
          (match cur with
           | none => buffer ++ [line, ""]
           | some a => if pyStripQuotes a ∉ existing then buffer ++ [line, ""] else [])
          ++ filter_new_blocks existing rest [] none
        else if buffer ≠ [] then
          filter_new_blocks existing rest (buffer ++ [line]) cur
        else line :: filter_new_blocks existing rest buffer cur := rfl

theorem fnb_step_open (existing : List String) (line : String) (rest buffer : List String)
    (cur : Option String) (h1 : pyStartsWith line "import \x7b" = true) :
    filter_new_blocks existing (line :: rest) buffer cur
      = filter_new_blocks existing rest [line] none := by
  rw [fnb_cons, if_pos h1]

theorem fnb_step_to (existing : List String) (line : String) (rest buffer : List String)
    (cur : Option String) (h1 : pyStartsWith line "import \x7b" = false)
    (h2 : pyStartsWith line "  to =" = true) :
    filter_new_blocks existing (line :: rest) buffer cur
      = filter_new_blocks existing rest (buffer ++ [line])
          (some (pyStrip (afterFirstEq line))) := by
  rw [fnb_cons, h1]
  rw [if_neg (by simp), if_pos h2]

theorem fnb_step_close (existing : List String) (rest buffer : List String) (a : String) :
    filter_new_blocks existing ("\x7d" :: rest) buffer (some a)
      = (if pyStripQuotes a ∉ existing then buffer ++ ["\x7d", ""] else [])
        ++ filter_new_blocks existing rest [] none := by
  rw [fnb_cons]
  rw [if_neg (by decide), if_neg (by decide), if_pos rfl]

theorem fnb_step_buffered (existing : List String) (line : String) (rest buffer : List String)
    (cur : Option String) (h1 : pyStartsWith line "import \x7b" = false)
    (h2 : pyStartsWith line "  to =" = false) (h3 : line ≠ "\x7d") (h4 : buffer ≠ []) :
    filter_new_blocks existing (line :: rest) buffer cur
      = filter_new_blocks existing rest (buffer ++ [line]) cur := by
  rw [fnb_cons, h1, h2]
  rw [if_neg (by simp), if_neg (by simp), if_neg h3, if_pos h4]

theorem fnb_step_pass (existing : List String) (line : String) (rest : List String)
    (cur : Option String) (h1 : pyStartsWith line "import \x7b" = false)
    (h2 : pyStartsWith line "  to =" = false) (h3 : line ≠ "\x7d") :
    filter_new_blocks existing (line :: rest) [] cur
      = line :: filter_new_blocks existing rest [] cur := by
  rw [fnb_cons, h1, h2]
  rw [if_neg (by simp), if_neg (by simp), if_neg h3, if_neg (by simp)]

theorem listBind_cons {α β : Type} (c : α) (l : List α) (f : α → List β) :
    (c :: l).bind f = f c ++ l.bind f := rfl

theorem pyStartsWith_false_head2 {s pat : String} {c0 c1 : Char}
    (hs : s.data.head? = some c1) (hp : pat.data.head? = some c0) (h : c0 ≠ c1) :
    pyStartsWith s pat = false := by
  obtain ⟨tl, htl⟩ := head_data_of_head? hs
  obtain ⟨ptl, hptl⟩ := head_data_of_head? hp
  exact pyStartsWith_false_head htl hptl h

theorem str_ne_of_head2 {s t : String} {c0 c1 : Char}
    (hs : s.data.head? = some c0) (ht : t.data.head? = some c1) (h : c0 ≠ c1) : s ≠ t := by
  obtain ⟨tl0, htl0⟩ := head_data_of_head? hs
  obtain ⟨tl1, htl1⟩ := head_data_of_head? ht
  exact str_ne_of_head htl0 htl1 h

theorem zone_block_eq_segment (zi : ZoneInfo) :
    zone_import_block zi = import_segment "# Import hosted zone" (zone_to_addr zi) zi.id := rfl

theorem record_block_eq_segment (zi : ZoneInfo) (rec : Record) :
    record_import_block zi rec
      = if rec.type = "NS" ∨ rec.type = "SOA" then []
        else import_segment ("# Import record: " ++ terraform_record_key zi.name rec)
          (record_to_addr zi rec) (record_import_identifier zi.id rec) := rfl

theorem records_bind_eq_triples (zi : ZoneInfo) (records : List Record) :
    records.bind (record_import_block zi)
      = (records.bind (fun rec =>
          if rec.type = "NS" ∨ rec.type = "SOA" then []
          else [("# Import record: " ++ terraform_record_key zi.name rec,
                 record_to_addr zi rec, record_import_identifier zi.id rec)])).bind
          (fun t => import_segment t.1 t.2.1 t.2.2) := by
  induction records with
  | nil => rfl
  | cons rec rest ih =>
    rw [listBind_cons, listBind_cons, listBind_append, ih]
    congr 1
    by_cases h : rec.type = "NS" ∨ rec.type = "SOA"
    · rw [record_block_eq_segment, if_pos h, if_pos h]
      rfl
    · rw [record_block_eq_segment, if_neg h, if_neg h]
      rw [listBind_cons]
      show _ = _ ++ ([] : List (String × String × String)).bind _
      rw [show (([] : List (String × String × String)).bind
          (fun t => import_segment t.1 t.2.1 t.2.2)) = [] from rfl, List.append_nil]

theorem import_blocks_eq_triples (fetch : String → String → List Record)
    (processed : List ZoneInfo) :
    import_blocks_lines fetch processed
      = (import_triples fetch processed).bind (fun t => import_segment t.1 t.2.1 t.2.2) := by
  induction processed with
  | nil => rfl
  | cons zi rest ih =>
    show (if zi.existing then
        zone_import_block zi ++ (fetch zi.id zi.name).bind (record_import_block zi)
      else []) ++ import_blocks_lines fetch rest
      = ((if zi.existing then
          ("# Import hosted zone", zone_to_addr zi, zi.id)
            :: (fetch zi.id zi.name).bind (fun rec =>
              if rec.type = "NS" ∨ rec.type = "SOA" then []
              else [("# Import record: " ++ terraform_record_key zi.name rec,
                     record_to_addr zi rec, record_import_identifier zi.id rec)])
        else []) ++ import_triples fetch rest).bind (fun t => import_segment t.1 t.2.1 t.2.2)
    rw [listBind_append, ih]
    congr 1
    cases h : zi.existing with
    | true =>
      rw [if_pos rfl, if_pos rfl, listBind_cons, zone_block_eq_segment,
        records_bind_eq_triples]
    | false =>
      rw [if_neg (by simp), if_neg (by simp)]
      rfl

theorem import_triples_comment (fetch : String → String → List Record)
    (processed : List ZoneInfo) :
    ∀ t ∈ import_triples fetch processed, t.1.data.head? = some '#' := by
  induction processed with
  | nil => intro t ht; cases ht
  | cons zi rest ih =>
    intro t ht
    have ht2 : t ∈ (if zi.existing then
        ("# Import hosted zone", zone_to_addr zi, zi.id)
          :: (fetch zi.id zi.name).bind (fun rec =>
            if rec.type = "NS" ∨ rec.type = "SOA" then []
            else [("# Import record: " ++ terraform_record_key zi.name rec,
                   record_to_addr zi rec, record_import_identifier zi.id rec)])
      else []) ++ import_triples fetch rest := ht
    rw [List.mem_append] at ht2
    rcases ht2 with h | h
    · cases hex : zi.existing with
      | true =>
        rw [hex, if_pos rfl] at h
        rcases List.mem_cons.mp h with h0 | h1
        · subst h0; rfl
        · rw [List.mem_bind] at h1
          obtain ⟨rec, -, hrec⟩ := h1
          by_cases hns : rec.type = "NS" ∨ rec.type = "SOA"
          · rw [if_pos hns] at hrec; cases hrec
          · rw [if_neg hns] at hrec
            rcases List.mem_singleton.mp hrec with rfl
            rfl
      | false =>
        rw [hex, if_neg (by simp)] at h
        cases h
    · exact ih t h

/-- The filtering loop on segment-structured blocks: a block whose
target address is already known collapses to its comment and blank
line; an unseen one is kept whole (gaining one extra blank line). -/
theorem filter_new_blocks_triples (existing : List String)
    (ts : List (String × String × String))
    (hcom : ∀ t ∈ ts, t.1.data.head? = some '#') :
    filter_new_blocks existing (ts.bind (fun t => import_segment t.1 t.2.1 t.2.2)) [] none
      = ts.bind (fun t =>
          if to_line_addr ("  to = " ++ t.2.1) ∉ existing then
            [t.1, "import \x7b", "  to = " ++ t.2.1, "  id = \"" ++ t.2.2 ++ "\"",
             "\x7d", "", ""]
          else [t.1, ""]) := by
  induction ts with
  | nil => rfl
  | cons t ts' ih =>
    have hhead : t.1.data.head? = some '#' := hcom t (List.mem_cons_self _ _)
    rw [listBind_cons, listBind_cons]
    have hseg : import_segment t.1 t.2.1 t.2.2
          ++ ts'.bind (fun t => import_segment t.1 t.2.1 t.2.2)
        = t.1 :: "import \x7b" :: ("  to = " ++ t.2.1)
            :: ("  id = \"" ++ t.2.2 ++ "\"") :: "\x7d" :: ""
            :: ts'.bind (fun t => import_segment t.1 t.2.1 t.2.2) := rfl
    rw [hseg]
    rw [fnb_step_pass existing t.1 _ none
      (pyStartsWith_false_head2 hhead rfl (by decide))
      (pyStartsWith_false_head2 hhead rfl (by decide))
      (str_ne_of_head2 hhead rfl (by decide))]
    rw [fnb_step_open existing "import \x7b" _ [] none rfl]
    rw [fnb_step_to existing ("  to = " ++ t.2.1) _ ["import \x7b"] none
      (pyStartsWith_false_head2 rfl rfl (by decide)) rfl]
    rw [fnb_step_buffered existing ("  id = \"" ++ t.2.2 ++ "\"") _
      (["import \x7b"] ++ ["  to = " ++ t.2.1]) _
      (pyStartsWith_false_head2 rfl rfl (by decide)) rfl
      (str_ne_of_head2 rfl rfl (by decide)) (by simp)]
    rw [fnb_step_close]
    rw [fnb_step_pass existing "" _ none (by decide) (by decide) (by decide)]
    rw [ih (fun u hu => hcom u (List.mem_cons_of_mem _ hu))]
    by_cases hc : pyStripQuotes (pyStrip (afterFirstEq ("  to = " ++ t.2.1))) ∉ existing
    · rw [if_pos hc, if_pos (show to_line_addr ("  to = " ++ t.2.1) ∉ existing from hc)]
      simp [List.append_assoc]
    · rw [if_neg hc, if_neg (show ¬ to_line_addr ("  to = " ++ t.2.1) ∉ existing from hc)]
      simp

/-- C6: when the bindings file already exists and overwrite mode is off,
the import planning step parses it for previously bound target addresses (the
left-hand side of each binding) and the filtered output contains no
binding statement whose target address already appears there; when every
emitted target address is already present, the filtered output contains
no binding statement at all — no `import` opener and no target line — so
re-running appends no duplicate binding for any target address. -/
theorem C6_dedup_import_blocks :
    ∀ (fetch : String → String → List Record) (processed : List ZoneInfo)
      (existing : String),
      (∀ line ∈ filter_new_blocks (parse_existing_imports existing)
          (import_blocks_lines fetch processed) [] none,
        pyStartsWith line "  to =" = true →
        to_line_addr line ∉ parse_existing_imports existing) ∧
      ((∀ t ∈ import_triples fetch processed,
          to_line_addr ("  to = " ++ t.2.1) ∈ parse_existing_imports existing) →
        ∀ line ∈ filter_new_blocks (parse_existing_imports existing)
            (import_blocks_lines fetch processed) [] none,
          line ≠ "import \x7b" ∧ pyStartsWith line "  to =" = false) := by
  intro fetch processed existing
  rw [import_blocks_eq_triples,
    filter_new_blocks_triples _ _ (import_triples_comment fetch processed)]
  constructor
  · intro line hline hto
    rw [List.mem_bind] at hline
    obtain ⟨t, ht, hmem⟩ := hline
    have hhead := import_triples_comment fetch processed t ht
    by_cases hc : to_line_addr ("  to = " ++ t.2.1) ∉ parse_existing_imports existing
    · rw [if_pos hc] at hmem
      simp only [List.mem_cons, List.not_mem_nil, or_false] at hmem
      rcases hmem with rfl | rfl | rfl | rfl | rfl | rfl | rfl
      · rw [pyStartsWith_false_head2 hhead
          (show ("  to =" : String).data.head? = some ' ' from rfl) (by decide)] at hto
        cases hto
      · rw [show pyStartsWith "import \x7b" "  to =" = false from rfl] at hto; cases hto
      · exact hc
      · rw [show pyStartsWith ("  id = \"" ++ t.2.2 ++ "\"") "  to =" = false from rfl]
          at hto
        cases hto
      · cases hto
      · cases hto
      · cases hto
    · rw [if_neg hc] at hmem
      simp only [List.mem_cons, List.not_mem_nil, or_false] at hmem
      rcases hmem with rfl | rfl
      · rw [pyStartsWith_false_head2 hhead
          (show ("  to =" : String).data.head? = some ' ' from rfl) (by decide)] at hto
        cases hto
      · cases hto
  · intro hall line hline
    rw [List.mem_bind] at hline
    obtain ⟨t, ht, hmem⟩ := hline
    have hhead := import_triples_comment fetch processed t ht
    rw [if_neg (by
      intro hnot
      exact hnot (hall t ht))] at hmem
    simp only [List.mem_cons, List.not_mem_nil, or_false] at hmem
    rcases hmem with rfl | rfl
    · exact ⟨str_ne_of_head2 hhead
          (show ("import \x7b" : String).data.head? = some 'i' from rfl) (by decide),
        pyStartsWith_false_head2 hhead
          (show ("  to =" : String).data.head? = some ' ' from rfl) (by decide)⟩
    · exact ⟨by decide, rfl⟩

/-- C6 witness: re-running against a bindings file that already contains
every target address appends no import opener at all. -/
theorem C6_dedup_import_blocks_witness :
    "import \x7b" ∉ filter_new_blocks
      (parse_existing_imports (joinLines (import_blocks_lines
        (fun _ _ => [{ name := "www.a.com", type := "A", ttl := some 300,
                       records := ["1.1.1.1"], aliasInfo := none }])
        [{ name := "a.com", id := "Z1", is_subdomain := false,
           has_records := true, existing := true }])))
      (import_blocks_lines
        (fun _ _ => [{ name := "www.a.com", type := "A", ttl := some 300,
                       records := ["1.1.1.1"], aliasInfo := none }])
        [{ name := "a.com", id := "Z1", is_subdomain := false,
           has_records := true, existing := true }]) [] none := by
  intro hmem
  have h := (C6_dedup_import_blocks
      (fun _ _ => [{ name := "www.a.com", type := "A", ttl := some 300,
                     records := ["1.1.1.1"], aliasInfo := none }])
      [{ name := "a.com", id := "Z1", is_subdomain := false,
         has_records := true, existing := true }]
      (joinLines (import_blocks_lines
        (fun _ _ => [{ name := "www.a.com", type := "A", ttl := some 300,
                       records := ["1.1.1.1"], aliasInfo := none }])
        [{ name := "a.com", id := "Z1", is_subdomain := false,
           has_records := true, existing := true }]))).2
      (by decide) _ hmem
  exact h.1 rfl

set_option maxRecDepth 10000 in
/-- C2 counterexample: starting from a pre-existing group-outputs
document consisting of a dangling `output "` header (an unterminated
quoted name), the first run appends a block for zone `f`, but the
second run with the same processed-zone set does not recognise it
(the dangling quote swallows the new header during parsing), so the
second run rewrites the document and its output differs byte-wise from
the first run's result. -/
theorem C2_counterexample :
    (update_zones_outputs_file (some "output \"")
        [{ name := "f", id := "Z1", is_subdomain := false, has_records := false,
           existing := true }]).isSome = true ∧
    update_zones_outputs_file
        (some ((update_zones_outputs_file (some "output \"")
          [{ name := "f", id := "Z1", is_subdomain := false, has_records := false,
             existing := true }]).getD ""))
        [{ name := "f", id := "Z1", is_subdomain := false, has_records := false,
           existing := true }] ≠ none ∧
    update_zones_outputs_file
        (some ((update_zones_outputs_file (some "output \"")
          [{ name := "f", id := "Z1", is_subdomain := false, has_records := false,
             existing := true }]).getD ""))
        [{ name := "f", id := "Z1", is_subdomain := false, has_records := false,
           existing := true }]
      ≠ update_zones_outputs_file (some "output \"")
          [{ name := "f", id := "Z1", is_subdomain := false, has_records := false,
             existing := true }] := by
  exact ⟨by decide, by decide, by decide⟩

set_option maxRecDepth 10000 in
/-- C3 counterexample: with a named entry `keep` positioned after the
combined `all_zones` entry, the merge splices the new zone's fragment at
the last two-space-brace token — which lies inside `keep` — so the
existing named entry `keep` does not appear unmodified in the output
document (its text is no longer a contiguous substring). -/
theorem C3_counterexample :
    containsSub
        ("output \"keep\" \x7b\n  value = \x7b\n    a = 1\n  \x7d\n\x7d" : String).data
        ("# x\noutput \"all_zones\" \x7b\n  value = \x7b\n  \x7d\n\x7d\noutput \"keep\" \x7b\n  value = \x7b\n    a = 1\n  \x7d\n\x7d" : String).data
      = true ∧
    (update_zones_outputs_file
        (some "# x\noutput \"all_zones\" \x7b\n  value = \x7b\n  \x7d\n\x7d\noutput \"keep\" \x7b\n  value = \x7b\n    a = 1\n  \x7d\n\x7d")
        [{ name := "f", id := "Z1", is_subdomain := false, has_records := false,
           existing := true }]).isSome = true ∧
    containsSub
        ("output \"keep\" \x7b\n  value = \x7b\n    a = 1\n  \x7d\n\x7d" : String).data
        ((update_zones_outputs_file
          (some "# x\noutput \"all_zones\" \x7b\n  value = \x7b\n  \x7d\n\x7d\noutput \"keep\" \x7b\n  value = \x7b\n    a = 1\n  \x7d\n\x7d")
          [{ name := "f", id := "Z1", is_subdomain := false, has_records := false,
             existing := true }]).getD "").data
      = false := by
  exact ⟨by decide, by decide, by decide⟩

theorem head?_some_cons {α : Type} {l : List α} {c : α} (h : l.head? = some c) :
    l = c :: l.tail := by
  cases l with
  | nil => cases h
  | cons a t =>
    have : a = c := Option.some.inj h
    subst this
    rfl

theorem matchOutputAt_none_of_head {c : Char} (l : List Char) (h : c ≠ 'o') :
    matchOutputAt (c :: l) = none := by
  unfold matchOutputAt
  rw [if_neg]
  intro he
  rw [List.take_succ_cons] at he
  exact h (List.head_eq_of_cons_eq he)

theorem matchOutputAt_lt {l cap after : List Char}
    (h : matchOutputAt l = some (cap, after)) : after.length < l.length := by
  unfold matchOutputAt at h
  by_cases h6 : l.take 6 = outLit
  · rw [if_pos h6] at h
    by_cases hw : (l.drop 6).takeWhile isPyWs = []
    · rw [if_pos hw] at h; cases h
    · rw [if_neg hw] at h
      by_cases hq : ((l.drop 6).dropWhile isPyWs).head? = some '"'
      · rw [if_pos hq] at h
        by_cases hcap : (((l.drop 6).dropWhile isPyWs).tail).takeWhile (· != '"') = []
        · rw [if_pos hcap] at h; cases h
        · rw [if_neg hcap] at h
          by_cases hq2 : ((((l.drop 6).dropWhile isPyWs).tail).dropWhile (· != '"')).head?
              = some '"'
          · rw [if_pos hq2] at h
            have hafter : ((((l.drop 6).dropWhile isPyWs).tail).dropWhile (· != '"')).tail
                = after := congrArg Prod.snd (Option.some.inj h)
            have e1 : 6 ≤ l.length := by
              have hlen := congrArg List.length h6
              rw [List.length_take] at hlen
              rw [show outLit.length = 6 from rfl] at hlen
              omega
            have e2 : (l.drop 6).length = l.length - 6 := List.length_drop _ _
            have e3 : ((l.drop 6).takeWhile isPyWs).length
                + ((l.drop 6).dropWhile isPyWs).length = (l.drop 6).length := by
              have := congrArg List.length (List.takeWhile_append_dropWhile
                (p := isPyWs) (l := l.drop 6))
              rw [List.length_append] at this
              exact this
            have e4 : 1 ≤ ((l.drop 6).takeWhile isPyWs).length := by
              cases hx : (l.drop 6).takeWhile isPyWs with
              | nil => exact absurd hx hw
              | cons a t => simp
            have e5 : ((l.drop 6).dropWhile isPyWs).length
                = (((l.drop 6).dropWhile isPyWs).tail).length + 1 := by
              rw [head?_some_cons hq]
              simp
            have e6 : ((((l.drop 6).dropWhile isPyWs).tail).takeWhile (· != '"')).length
                + ((((l.drop 6).dropWhile isPyWs).tail).dropWhile (· != '"')).length
                = (((l.drop 6).dropWhile isPyWs).tail).length := by
              have := congrArg List.length (List.takeWhile_append_dropWhile
                (p := (· != '"')) (l := ((l.drop 6).dropWhile isPyWs).tail))
              rw [List.length_append] at this
              exact this
            have e7 : 1 ≤ ((((l.drop 6).dropWhile isPyWs).tail).takeWhile (· != '"')).length := by
              cases hx : (((l.drop 6).dropWhile isPyWs).tail).takeWhile (· != '"') with
              | nil => exact absurd hx hcap
              | cons a t => simp
            have e8 : ((((l.drop 6).dropWhile isPyWs).tail).dropWhile (· != '"')).length
                = after.length + 1 := by
              rw [head?_some_cons hq2, ← hafter]
              simp
            omega
          · rw [if_neg hq2] at h; cases h
      · rw [if_neg hq] at h; cases h
  · rw [if_neg h6] at h; cases h

theorem findOutputsFuel_nil (f : Nat) : findOutputsFuel f [] = [] := by
  cases f <;> rfl

theorem findOutputsFuel_congr :
    ∀ (f1 : Nat) (l : List Char) (f2 : Nat), l.length ≤ f1 → l.length ≤ f2 →
      findOutputsFuel f1 l = findOutputsFuel f2 l := by
  intro f1
  induction f1 with
  | zero =>
    intro l f2 h1 _
    have : l = [] := List.length_eq_zero.mp (Nat.le_zero.mp h1)
    subst this
    rw [findOutputsFuel_nil, findOutputsFuel_nil]
  | succ g1 ih =>
    intro l f2 h1 h2
    cases l with
    | nil => rw [findOutputsFuel_nil, findOutputsFuel_nil]
    | cons c rest =>
      cases f2 with
      | zero =>
        exfalso
        have : (c :: rest).length = 0 := Nat.le_zero.mp h2
        simp at this
      | succ g2 =>
        show (match matchOutputAt (c :: rest) with
            | some (cap, after) => cap :: findOutputsFuel g1 after
            | none => findOutputsFuel g1 rest)
          = (match matchOutputAt (c :: rest) with
            | some (cap, after) => cap :: findOutputsFuel g2 after
            | none => findOutputsFuel g2 rest)
        cases hm : matchOutputAt (c :: rest) with
        | some pair =>
          obtain ⟨cap, after⟩ := pair
          have hlt := matchOutputAt_lt hm
          have ha1 : after.length ≤ g1 := by
            have : (c :: rest).length = rest.length + 1 := rfl
            omega
          have ha2 : after.length ≤ g2 := by
            have : (c :: rest).length = rest.length + 1 := rfl
            omega
          show cap :: findOutputsFuel g1 after = cap :: findOutputsFuel g2 after
          rw [ih after g2 ha1 ha2]
        | none =>
          have hr1 : rest.length ≤ g1 := by
            have : (c :: rest).length = rest.length + 1 := rfl
            omega
          have hr2 : rest.length ≤ g2 := by
            have : (c :: rest).length = rest.length + 1 := rfl
            omega
          show findOutputsFuel g1 rest = findOutputsFuel g2 rest
          rw [ih rest g2 hr1 hr2]

theorem findOutputs_cons_match {c : Char} {rest cap after : List Char}
    (h : matchOutputAt (c :: rest) = some (cap, after)) :
    findOutputs (c :: rest) = cap :: findOutputs after := by
  show findOutputsFuel (c :: rest).length (c :: rest) = _
  have hstep : findOutputsFuel (c :: rest).length (c :: rest)
      = (match matchOutputAt (c :: rest) with
        | some (cap, after) => cap :: findOutputsFuel rest.length after
        | none => findOutputsFuel rest.length rest) := rfl
  rw [hstep, h]
  show cap :: findOutputsFuel rest.length after = cap :: findOutputs after
  have := matchOutputAt_lt h
  rw [findOutputsFuel_congr rest.length after after.length
    (by
      have : (c :: rest).length = rest.length + 1 := rfl
      omega)
    (Nat.le_refl _)]
  rfl

theorem findOutputs_cons_nomatch {c : Char} {rest : List Char}
    (h : matchOutputAt (c :: rest) = none) :
    findOutputs (c :: rest) = findOutputs rest := by
  show findOutputsFuel (c :: rest).length (c :: rest) = _
  have hstep : findOutputsFuel (c :: rest).length (c :: rest)
      = (match matchOutputAt (c :: rest) with
        | some (cap, after) => cap :: findOutputsFuel rest.length after
        | none => findOutputsFuel rest.length rest) := rfl
  rw [hstep, h]
  rfl

theorem findOutputs_skip_noO (a : List Char) (h : ∀ c ∈ a, c ≠ 'o') (k : List Char) :
    findOutputs (a ++ k) = findOutputs k := by
  induction a with
  | nil => rfl
  | cons c a' ih =>
    rw [List.cons_append,
      findOutputs_cons_nomatch (matchOutputAt_none_of_head _ (h c (List.mem_cons_self _ _))),
      ih (fun d hd => h d (List.mem_cons_of_mem _ hd))]

theorem matchOutputAt_header (s : String) (k : List Char)
    (hne : s.data ≠ []) (hq : ∀ c ∈ s.data, c ≠ '"') :
    matchOutputAt (("output \"" ++ s).data ++ ('"' :: k)) = some (s.data, k) := by
  have hq2 : ∀ c ∈ s.data, (c != '"') = true := fun c hc => bne_iff_ne.mpr (hq c hc)
  have hcap : (s.data ++ '"' :: k).takeWhile (· != '"') = s.data := by
    rw [List.takeWhile_append_of_pos hq2]
    rw [show (('"' :: k).takeWhile (· != '"')) = [] from rfl, List.append_nil]
  have hdropq : (s.data ++ '"' :: k).dropWhile (· != '"') = '"' :: k := by
    rw [List.dropWhile_append_of_pos hq2]
    rfl
  show (if (s.data ++ '"' :: k).takeWhile (· != '"') = [] then none
      else if ((s.data ++ '"' :: k).dropWhile (· != '"')).head? = some '"' then
        some ((s.data ++ '"' :: k).takeWhile (· != '"'),
              ((s.data ++ '"' :: k).dropWhile (· != '"')).tail)
      else none) = some (s.data, k)
  rw [hcap, hdropq, if_neg hne]
  rfl

theorem findOutputs_header (s : String) (k : List Char) (hne : s.data ≠ [])
    (hq : ∀ c ∈ s.data, c ≠ '"') :
    findOutputs (("output \"" ++ s).data ++ ('"' :: k)) = s.data :: findOutputs k := by
  have hm := matchOutputAt_header s k hne hq
  have hcons : ("output \"" ++ s).data ++ ('"' :: k)
      = 'o' :: (("utput \"" ++ s).data ++ ('"' :: k)) := rfl
  rw [hcons] at hm
  rw [hcons, findOutputs_cons_match hm]

theorem matchOutputAt_none_of_suffixSafe :
    ∀ (l : List Char), l ≠ [] → suffixSafe l = true →
      ∀ k, matchOutputAt (l ++ k) = none := by
  intro l hne hs k
  cases l with
  | nil => exact absurd rfl hne
  | cons c rest =>
    by_cases hco : c = 'o'
    case neg =>
      rw [List.cons_append]
      exact matchOutputAt_none_of_head _ hco
    subst hco
    have hs2 : (if ('o' :: rest).length < 6
          then !(isPrefixOfChars ('o' :: rest) outLit)
          else if !(decide (('o' :: rest).take 6 = outLit)) then true
          else
            match ('o' :: rest).drop 6 with
            | [] => false
            | d :: r' =>
              if !(isPyWs d) then true
              else
                match (d :: r').dropWhile isPyWs with
                | [] => false
                | e :: _ => e != '"') = true := by
      have : suffixSafe ('o' :: rest)
          = (if ('o' :: rest).length < 6
            then !(isPrefixOfChars ('o' :: rest) outLit)
            else if !(decide (('o' :: rest).take 6 = outLit)) then true
            else
              match ('o' :: rest).drop 6 with
              | [] => false
              | d :: r' =>
                if !(isPyWs d) then true
                else
                  match (d :: r').dropWhile isPyWs with
                  | [] => false
                  | e :: _ => e != '"') := by
        show suffixSafe ('o' :: rest) = _
        rw [suffixSafe]
        rw [if_neg (by simp)]
      rw [← this]
      exact hs
    by_cases hlen : ('o' :: rest).length < 6
    · -- short chunk tail that is not a prefix of the literal
      rw [if_pos hlen] at hs2
      have hnp : isPrefixOfChars ('o' :: rest) outLit = false := by
        cases hx : isPrefixOfChars ('o' :: rest) outLit with
        | false => rfl
        | true => rw [hx] at hs2; cases hs2
      unfold matchOutputAt
      rw [if_neg]
      intro habs
      have hpre : ('o' :: rest) <+: outLit := by
        have h1 : ('o' :: rest) <+: ('o' :: rest) ++ k := ⟨k, rfl⟩
        have h2 : ('o' :: rest)
            = (('o' :: rest) ++ k).take ('o' :: rest).length := by
          rw [List.take_left]
        have h3 : (('o' :: rest) ++ k).take ('o' :: rest).length
            = ((('o' :: rest) ++ k).take 6).take ('o' :: rest).length := by
          rw [List.take_take, Nat.min_eq_left (Nat.le_of_lt hlen)]
        rw [habs] at h3
        rw [h3] at h2
        exact h2 ▸ List.take_prefix _ _
      rw [(isPrefixOfChars_iff _ _).mpr hpre] at hnp
      cases hnp
    · rw [if_neg hlen] at hs2
      have hlen6 : 6 ≤ ('o' :: rest).length := Nat.le_of_not_lt hlen
      by_cases h6 : ('o' :: rest).take 6 = outLit
      case neg =>
        unfold matchOutputAt
        rw [if_neg]
        rw [List.take_append_of_le_length hlen6]
        exact h6
      rw [if_neg (by rw [decide_eq_true h6]; simp)] at hs2
      cases hdr : ('o' :: rest).drop 6 with
      | nil =>
        exfalso
        rw [hdr] at hs2
        exact Bool.noConfusion (show false = true from hs2)
      | cons d r' =>
        rw [hdr] at hs2
        have hs3 : (if (!isPyWs d) = true then true
            else
              match List.dropWhile isPyWs (d :: r') with
              | [] => false
              | e :: _ => e != '"') = true := hs2
        by_cases hd : isPyWs d = true
        case neg =>
          -- literal complete, whitespace run empty: fail
          unfold matchOutputAt
          rw [if_pos (by rw [List.take_append_of_le_length hlen6]; exact h6)]
          rw [if_pos]
          rw [List.drop_append_of_le_length hlen6, hdr, List.cons_append]
          show (d :: (r' ++ k)).takeWhile isPyWs = []
          rw [List.takeWhile_cons_of_neg]
          exact hd
        · rw [if_neg (by rw [hd]; simp)] at hs3
          cases hdw : (d :: r').dropWhile isPyWs with
          | nil =>
            exfalso
            rw [hdw] at hs3
            exact Bool.noConfusion (show false = true from hs3)
          | cons e t =>
            rw [hdw] at hs3
            have he : e ≠ '"' := bne_iff_ne.mp hs3
            unfold matchOutputAt
            rw [if_pos (by rw [List.take_append_of_le_length hlen6]; exact h6)]
            rw [if_neg, if_neg]
            · intro habs
              rw [List.drop_append_of_le_length hlen6, hdr, List.cons_append] at habs
              have hdw2 : ((d :: r') ++ k).dropWhile isPyWs
                  = ((d :: r').dropWhile isPyWs) ++ k := by
                rw [List.dropWhile_append]
                rw [if_neg (by rw [hdw]; simp)]
              rw [List.cons_append] at hdw2
              rw [hdw2, hdw, List.cons_append] at habs
              have := Option.some.inj habs
              exact he this
            · rw [List.drop_append_of_le_length hlen6, hdr, List.cons_append]
              intro habs
              have : (d :: (r' ++ k)).takeWhile isPyWs
                  = d :: (r' ++ k).takeWhile isPyWs := List.takeWhile_cons_of_pos hd
              rw [this] at habs
              cases habs

theorem chunkOpaque_skip (a : List Char) (ho : chunkOpaque a = true) (k : List Char) :
    findOutputs (a ++ k) = findOutputs k := by
  induction a with
  | nil => rfl
  | cons c rest ih =>
    have hs : suffixSafe (c :: rest) = true ∧ chunkOpaque rest = true := by
      have : chunkOpaque (c :: rest)
          = (suffixSafe (c :: rest) && chunkOpaque rest) := rfl
      rw [this] at ho
      exact Bool.and_eq_true_iff.mp ho
    have hm := matchOutputAt_none_of_suffixSafe (c :: rest) (by simp) hs.1 k
    rw [List.cons_append] at hm
    rw [List.cons_append, findOutputs_cons_nomatch hm]
    exact ih hs.2

theorem matchOutputAt_none_mid (nm k : List Char) (_hne : nm ≠ [])
    (hnm : ∀ c ∈ nm, isPyWs c = false ∧ c ≠ '"')
    (hk1 : ∀ c, k.head? = some c → c ∉ outLit)
    (hk2 : ∀ c, k.head? = some c → isPyWs c = true →
      ∀ e, (k.dropWhile isPyWs).head? = some e → e ≠ '"') :
    matchOutputAt (nm ++ k) = none := by
  by_cases h6 : (nm ++ k).take 6 = outLit
  case neg =>
    unfold matchOutputAt
    rw [if_neg h6]
  by_cases hlen : 6 ≤ nm.length
  case neg =>
    -- the name is shorter than the literal, so k would have to continue
    -- it with a character of the literal, which hk1 forbids
    exfalso
    have hlt : nm.length < 6 := Nat.lt_of_not_le hlen
    cases k with
    | nil =>
      rw [List.append_nil] at h6
      have h1 := congrArg List.length h6
      rw [List.length_take, show outLit.length = 6 from rfl] at h1
      omega
    | cons c' k' =>
      have htk : (nm ++ c' :: k').take 6 = nm ++ (c' :: k').take (6 - nm.length) := by
        rw [List.take_append_eq_append_take, List.take_of_length_le (le_of_lt hlt)]
      rw [htk] at h6
      cases hd : 6 - nm.length with
      | zero => omega
      | succ m =>
        rw [hd, List.take_succ_cons] at h6
        have hcmem : c' ∈ outLit := by
          rw [← h6]
          exact List.mem_append_right _ (List.mem_cons_self _ _)
        exact hk1 c' rfl hcmem
  · unfold matchOutputAt
    rw [if_pos h6]
    cases hdr : nm.drop 6 with
    | cons d t =>
      -- the whitespace run is empty: the next character is a name
      -- character, which is not whitespace
      rw [if_pos]
      rw [List.drop_append_of_le_length hlen, hdr, List.cons_append]
      show (d :: (t ++ k)).takeWhile isPyWs = []
      rw [List.takeWhile_cons_of_neg]
      have := (hnm d (List.drop_subset 6 nm (by rw [hdr]; exact List.mem_cons_self _ _))).1
      rw [this]
      simp
    | nil =>
      have hr : (nm ++ k).drop 6 = k := by
        rw [List.drop_append_of_le_length hlen, hdr]
        rfl
      cases k with
      | nil =>
        rw [if_pos]
        rw [hr]
        rfl
      | cons c' k' =>
        by_cases hws : isPyWs c' = true
        case neg =>
          rw [if_pos]
          rw [hr]
          show (c' :: k').takeWhile isPyWs = []
          rw [List.takeWhile_cons_of_neg]
          rw [show (isPyWs c' = false) from Bool.eq_false_iff.mpr hws]
          simp
        · -- k starts with whitespace; after the run the head is not a
          -- quote, so the quote test fails
          rw [if_neg, if_neg]
          · rw [hr]
            cases hdw : (c' :: k').dropWhile isPyWs with
            | nil => simp
            | cons e t' =>
              intro habs
              have he := hk2 c' rfl hws e (by rw [hdw]; rfl)
              exact he (Option.some.inj habs)
          · rw [hr]
            intro habs
            have : (c' :: k').takeWhile isPyWs = c' :: k'.takeWhile isPyWs :=
              List.takeWhile_cons_of_pos hws
            rw [this] at habs
            cases habs

theorem findOutputs_skip_name (nm k : List Char)
    (hnm : ∀ c ∈ nm, isPyWs c = false ∧ c ≠ '"')
    (hk1 : ∀ c, k.head? = some c → c ∉ outLit)
    (hk2 : ∀ c, k.head? = some c → isPyWs c = true →
      ∀ e, (k.dropWhile isPyWs).head? = some e → e ≠ '"') :
    findOutputs (nm ++ k) = findOutputs k := by
  induction nm with
  | nil => rfl
  | cons c nm' ih =>
    have hm := matchOutputAt_none_mid (c :: nm') k (by simp) hnm hk1 hk2
    rw [List.cons_append] at hm
    rw [List.cons_append, findOutputs_cons_nomatch hm]
    exact ih (fun d hd => hnm d (List.mem_cons_of_mem _ hd))

theorem strAppend_assoc (a b c : String) : a ++ b ++ c = a ++ (b ++ c) :=
  str_ext (List.append_assoc a.data b.data c.data)

theorem empty_append (s : String) : "" ++ s = s := str_ext rfl

theorem joinLines_cons_ne (l : String) (M : List String) (hM : M ≠ []) :
    joinLines (l :: M) = l ++ "\n" ++ joinLines M := by
  cases M with
  | nil => exact absurd rfl hM
  | cons x xs => rfl

theorem joinLines_append (A B : List String) (hB : B ≠ []) :
    joinLines (A ++ B) = linesGlue A ++ joinLines B := by
  induction A with
  | nil => rw [List.nil_append, linesGlue, empty_append]
  | cons a A' ih =>
    have hAB : A' ++ B ≠ [] := by
      intro h
      exact hB (List.append_eq_nil.mp h).2
    rw [List.cons_append, joinLines_cons_ne a (A' ++ B) hAB, ih, linesGlue,
      strAppend_assoc, strAppend_assoc, ← strAppend_assoc]

theorem joinLines_trailing_empty (A : List String) :
    joinLines (A ++ [""]) = linesGlue A := by
  induction A with
  | nil => rfl
  | cons a A' ih =>
    have hne : A' ++ [""] ≠ [] := by
      intro h
      exact absurd (List.append_eq_nil.mp h).2 (by simp)
    rw [List.cons_append, joinLines_cons_ne a (A' ++ [""]) hne, ih, linesGlue]

theorem linesGlue_append (A B : List String) :
    linesGlue (A ++ B) = linesGlue A ++ linesGlue B := by
  induction A with
  | nil => rw [List.nil_append, linesGlue, empty_append]
  | cons a A' ih =>
    rw [List.cons_append, linesGlue, linesGlue, ih, strAppend_assoc, strAppend_assoc,
      ← strAppend_assoc]

/-- A character that passes the sanitizer's keep test is neither
whitespace nor a quote. -/
theorem safe_of_alnum (c : Char) (h : (c.isAlphanum || c == '_') = true) :
    isPyWs c = false ∧ c ≠ '"' := by
  constructor
  · cases hw : isPyWs c with
    | false => rfl
    | true =>
      exfalso
      unfold isPyWs at hw
      rcases Bool.or_eq_true_iff.mp hw with hw1 | hw6
      · rcases Bool.or_eq_true_iff.mp hw1 with hw1 | hw5
        · rcases Bool.or_eq_true_iff.mp hw1 with hw1 | hw4
          · rcases Bool.or_eq_true_iff.mp hw1 with hw1 | hw3
            · rcases Bool.or_eq_true_iff.mp hw1 with hw1 | hw2
              · rw [beq_iff_eq.mp hw1] at h; exact Bool.noConfusion h
              · rw [beq_iff_eq.mp hw2] at h; exact Bool.noConfusion h
            · rw [beq_iff_eq.mp hw3] at h; exact Bool.noConfusion h
          · rw [beq_iff_eq.mp hw4] at h; exact Bool.noConfusion h
        · rw [beq_iff_eq.mp hw5] at h; exact Bool.noConfusion h
      · rw [beq_iff_eq.mp hw6] at h; exact Bool.noConfusion h
  · intro hq
    rw [hq] at h
    exact Bool.noConfusion h

/-- Sanitized module names contain no whitespace and no quotes. -/
theorem sanitize_safe (d : String) :
    ∀ c ∈ (sanitize_module_name d).data, isPyWs c = false ∧ c ≠ '"' :=
  fun c hc => safe_of_alnum c (sanitize_module_name_chars d c hc)

/-- The zone/records module references built from a sanitized name
contain no whitespace and no quotes. -/
theorem zone_module_safe (d : String) (b : Bool) :
    ∀ c ∈ (zone_module_name (sanitize_module_name d) b).data,
      isPyWs c = false ∧ c ≠ '"' := by
  intro c hc
  unfold zone_module_name at hc
  cases b with
  | false =>
    rw [if_neg (by simp)] at hc
    exact sanitize_safe d c hc
  | true =>
    rw [if_pos rfl] at hc
    have hc2 : c ∈ (sanitize_module_name d).data ++ ("_subdomain_zone" : String).data := hc
    rcases List.mem_append.mp hc2 with h | h
    · exact sanitize_safe d c h
    · exact (by decide :
        ∀ x ∈ ("_subdomain_zone" : String).data, isPyWs x = false ∧ x ≠ '"') c h

theorem records_module_safe (d : String) (b : Bool) :
    ∀ c ∈ (records_module_name (sanitize_module_name d) b).data,
      isPyWs c = false ∧ c ≠ '"' := by
  intro c hc
  unfold records_module_name at hc
  cases b with
  | false =>
    rw [if_neg (by simp)] at hc
    have hc2 : c ∈ (sanitize_module_name d).data ++ ("_records" : String).data := hc
    rcases List.mem_append.mp hc2 with h | h
    · exact sanitize_safe d c h
    · exact (by decide :
        ∀ x ∈ ("_records" : String).data, isPyWs x = false ∧ x ≠ '"') c h
  | true =>
    rw [if_pos rfl] at hc
    have hc2 : c ∈ (sanitize_module_name d).data
        ++ ("_subdomain_zone_records" : String).data := hc
    rcases List.mem_append.mp hc2 with h | h
    · exact sanitize_safe d c h
    · exact (by decide :
        ∀ x ∈ ("_subdomain_zone_records" : String).data, isPyWs x = false ∧ x ≠ '"') c h

/-- Sanitized module names contain no quote characters. -/
theorem sanitize_no_quote (d : String) : ∀ c ∈ (sanitize_module_name d).data, c ≠ '"' :=
  fun c hc => (sanitize_safe d c hc).2

theorem sanitize_data_ne_nil (d : String) : (sanitize_module_name d).data ≠ [] :=
  fun h => sanitize_module_name_ne_empty d (str_ext h)

/-- `findOutputs_header` with the document presented as flattened list
appends. -/
theorem findOutputs_header2 (s : String) (hne : s.data ≠ [])
    (hq : ∀ c ∈ s.data, c ≠ '"') (k : List Char) :
    findOutputs (("output \"" : String).data ++ (s.data ++ ('"' :: k)))
      = s.data :: findOutputs k := by
  have h := findOutputs_header s k hne hq
  rw [String.data_append, List.append_assoc] at h
  exact h

theorem skip_name_cond (nm : List Char)
    (hnm : ∀ x ∈ nm, isPyWs x = false ∧ x ≠ '"')
    (k : List Char) (hk : nameSkipOk k = true) :
    findOutputs (nm ++ k) = findOutputs k := by
  refine findOutputs_skip_name nm k hnm ?_ ?_
  · intro c hc
    unfold nameSkipOk at hk
    rw [hc] at hk
    have hk2 : (!(decide (c ∈ outLit)) &&
        (!(isPyWs c) ||
          (match (k.dropWhile isPyWs).head? with
           | none => true
           | some e => e != '"'))) = true := hk
    intro hmem
    rw [decide_eq_true hmem] at hk2
    exact Bool.noConfusion (Bool.and_eq_true_iff.mp hk2).1
  · intro c hc hws e he
    unfold nameSkipOk at hk
    rw [hc] at hk
    have hk2 : (!(decide (c ∈ outLit)) &&
        (!(isPyWs c) ||
          (match (k.dropWhile isPyWs).head? with
           | none => true
           | some e => e != '"'))) = true := hk
    have h2 := (Bool.and_eq_true_iff.mp hk2).2
    rw [hws] at h2
    have h3 : (match (k.dropWhile isPyWs).head? with
        | none => true
        | some e => e != '"') = true := by
      rcases Bool.or_eq_true_iff.mp h2 with h | h
      · exact Bool.noConfusion h
      · exact h
    rw [he] at h3
    exact bne_iff_ne.mp h3

theorem joinLines_append_cons (A : List String) (b : String) (B : List String) :
    joinLines (A ++ (b :: B)) = linesGlue A ++ joinLines (b :: B) :=
  joinLines_append A (b :: B) (by simp)

theorem findOutputs_header_line (s : String) (hne : s.data ≠ [])
    (hq : ∀ c ∈ s.data, c ≠ '"') (k : List Char) :
    findOutputs (("output \"" : String).data ++ (s.data ++ (("\" \x7b" : String).data ++ k)))
      = s.data :: findOutputs ((" \x7b" : String).data ++ k) :=
  findOutputs_header2 s hne hq ((" \x7b" : String).data ++ k)

/-- Scanning one emitted zone output block (followed by its separating
blank line) captures exactly the sanitized output name of the zone. -/
theorem zone_block_scan (zn s : String) (sub rec : Bool)
    (hzn : ∀ c ∈ zn.data, isPyWs c = false ∧ c ≠ '"')
    (hs : ∀ c ∈ s.data, isPyWs c = false ∧ c ≠ '"') (k : List Char) :
    findOutputs ((linesGlue (generate_zone_output_block zn s sub rec ++ [""])).data ++ k)
      = (sanitize_module_name zn).data :: findOutputs k := by
  cases sub with
  | false =>
    cases rec with
    | false =>
      simp only [generate_zone_output_block]
      rw [show zone_module_name s false = s from rfl,
          show records_module_name s false = s ++ "_records" from rfl,
          if_neg Bool.false_ne_true]
      simp only [linesGlue, List.cons_append, List.nil_append]
      repeat rw [String.data_append]
      repeat rw [List.append_assoc]
      rw [chunkOpaque_skip (("# Output " : String).data) (by decide)]
      rw [skip_name_cond zn.data hzn]
      rw [chunkOpaque_skip ((" details" : String).data) (by decide)]
      rw [chunkOpaque_skip (("\n" : String).data) (by decide)]
      rw [findOutputs_header_line (sanitize_module_name zn) (sanitize_data_ne_nil zn)
        (sanitize_no_quote zn)]
      rw [chunkOpaque_skip ((" \x7b" : String).data) (by decide)]
      rw [chunkOpaque_skip (("\n" : String).data) (by decide)]
      rw [chunkOpaque_skip (("  description = \"Details for " : String).data) (by decide)]
      rw [skip_name_cond zn.data hzn]
      rw [chunkOpaque_skip (("\"" : String).data) (by decide)]
      rw [chunkOpaque_skip (("\n" : String).data) (by decide)]
      rw [chunkOpaque_skip (("  value = \x7b" : String).data) (by decide)]
      rw [chunkOpaque_skip (("\n" : String).data) (by decide)]
      rw [chunkOpaque_skip (("    zone_id      = module." : String).data) (by decide)]
      rw [skip_name_cond s.data hs]
      rw [chunkOpaque_skip ((".route53_zone_zone_id[\"" : String).data) (by decide)]
      rw [skip_name_cond zn.data hzn]
      rw [chunkOpaque_skip (("\"]" : String).data) (by decide)]
      rw [chunkOpaque_skip (("\n" : String).data) (by decide)]
      rw [chunkOpaque_skip (("    name_servers = module." : String).data) (by decide)]
      rw [skip_name_cond s.data hs]
      rw [chunkOpaque_skip ((".route53_zone_name_servers[\"" : String).data) (by decide)]
      rw [skip_name_cond zn.data hzn]
      rw [chunkOpaque_skip (("\"]" : String).data) (by decide)]
      rw [chunkOpaque_skip (("\n" : String).data) (by decide)]
      rw [chunkOpaque_skip (("    records      = \x7b\x7d" : String).data) (by decide)]
      rw [chunkOpaque_skip (("\n" : String).data) (by decide)]
      rw [chunkOpaque_skip (("  \x7d" : String).data) (by decide)]
      rw [chunkOpaque_skip (("\n" : String).data) (by decide)]
      rw [chunkOpaque_skip (("\x7d" : String).data) (by decide)]
      rw [chunkOpaque_skip (("\n" : String).data) (by decide)]
      rw [chunkOpaque_skip (("" : String).data) (by decide)]
      rw [chunkOpaque_skip (("\n" : String).data) (by decide)]
      rw [chunkOpaque_skip (("" : String).data) (by decide)]
      all_goals rfl
    | true =>
      simp only [generate_zone_output_block]
      rw [show zone_module_name s false = s from rfl,
          show records_module_name s false = s ++ "_records" from rfl,
          if_pos trivial]
      simp only [linesGlue, List.cons_append, List.nil_append]
      repeat rw [String.data_append]
      repeat rw [List.append_assoc]
      rw [chunkOpaque_skip (("# Output " : String).data) (by decide)]
      rw [skip_name_cond zn.data hzn]
      rw [chunkOpaque_skip ((" details" : String).data) (by decide)]
      rw [chunkOpaque_skip (("\n" : String).data) (by decide)]
      rw [findOutputs_header_line (sanitize_module_name zn) (sanitize_data_ne_nil zn)
        (sanitize_no_quote zn)]
      rw [chunkOpaque_skip ((" \x7b" : String).data) (by decide)]
      rw [chunkOpaque_skip (("\n" : String).data) (by decide)]
      rw [chunkOpaque_skip (("  description = \"Details for " : String).data) (by decide)]
      rw [skip_name_cond zn.data hzn]
      rw [chunkOpaque_skip (("\"" : String).data) (by decide)]
      rw [chunkOpaque_skip (("\n" : String).data) (by decide)]
      rw [chunkOpaque_skip (("  value = \x7b" : String).data) (by decide)]
      rw [chunkOpaque_skip (("\n" : String).data) (by decide)]
      rw [chunkOpaque_skip (("    zone_id      = module." : String).data) (by decide)]
      rw [skip_name_cond s.data hs]
      rw [chunkOpaque_skip ((".route53_zone_zone_id[\"" : String).data) (by decide)]
      rw [skip_name_cond zn.data hzn]
      rw [chunkOpaque_skip (("\"]" : String).data) (by decide)]
      rw [chunkOpaque_skip (("\n" : String).data) (by decide)]
      rw [chunkOpaque_skip (("    name_servers = module." : String).data) (by decide)]
      rw [skip_name_cond s.data hs]
      rw [chunkOpaque_skip ((".route53_zone_name_servers[\"" : String).data) (by decide)]
      rw [skip_name_cond zn.data hzn]
      rw [chunkOpaque_skip (("\"]" : String).data) (by decide)]
      rw [chunkOpaque_skip (("\n" : String).data) (by decide)]
      rw [chunkOpaque_skip (("    records      = module." : String).data) (by decide)]
      rw [skip_name_cond s.data hs]
      rw [chunkOpaque_skip (("_records" : String).data) (by decide)]
      rw [chunkOpaque_skip ((".route53_record_name" : String).data) (by decide)]
      rw [chunkOpaque_skip (("\n" : String).data) (by decide)]
      rw [chunkOpaque_skip (("  \x7d" : String).data) (by decide)]
      rw [chunkOpaque_skip (("\n" : String).data) (by decide)]
      rw [chunkOpaque_skip (("\x7d" : String).data) (by decide)]
      rw [chunkOpaque_skip (("\n" : String).data) (by decide)]
      rw [chunkOpaque_skip (("" : String).data) (by decide)]
      rw [chunkOpaque_skip (("\n" : String).data) (by decide)]
      rw [chunkOpaque_skip (("" : String).data) (by decide)]
      all_goals rfl
  | true =>
    cases rec with
    | false =>
      simp only [generate_zone_output_block]
      rw [show zone_module_name s true = s ++ "_subdomain_zone" from rfl,
          show records_module_name s true = s ++ "_subdomain_zone_records" from rfl,
          if_neg Bool.false_ne_true]
      simp only [linesGlue, List.cons_append, List.nil_append]
      repeat rw [String.data_append]
      repeat rw [List.append_assoc]
      rw [chunkOpaque_skip (("# Output " : String).data) (by decide)]
      rw [skip_name_cond zn.data hzn]
      rw [chunkOpaque_skip ((" details" : String).data) (by decide)]
      rw [chunkOpaque_skip (("\n" : String).data) (by decide)]
      rw [findOutputs_header_line (sanitize_module_name zn) (sanitize_data_ne_nil zn)
        (sanitize_no_quote zn)]
      rw [chunkOpaque_skip ((" \x7b" : String).data) (by decide)]
      rw [chunkOpaque_skip (("\n" : String).data) (by decide)]
      rw [chunkOpaque_skip (("  description = \"Details for " : String).data) (by decide)]
      rw [skip_name_cond zn.data hzn]
      rw [chunkOpaque_skip (("\"" : String).data) (by decide)]
      rw [chunkOpaque_skip (("\n" : String).data) (by decide)]
      rw [chunkOpaque_skip (("  value = \x7b" : String).data) (by decide)]
      rw [chunkOpaque_skip (("\n" : String).data) (by decide)]
      rw [chunkOpaque_skip (("    zone_id      = module." : String).data) (by decide)]
      rw [skip_name_cond s.data hs]
      rw [chunkOpaque_skip (("_subdomain_zone" : String).data) (by decide)]
      rw [chunkOpaque_skip ((".route53_zone_zone_id[\"" : String).data) (by decide)]
      rw [skip_name_cond zn.data hzn]
      rw [chunkOpaque_skip (("\"]" : String).data) (by decide)]
      rw [chunkOpaque_skip (("\n" : String).data) (by decide)]
      rw [chunkOpaque_skip (("    name_servers = module." : String).data) (by decide)]
      rw [skip_name_cond s.data hs]
      rw [chunkOpaque_skip (("_subdomain_zone" : String).data) (by decide)]
      rw [chunkOpaque_skip ((".route53_zone_name_servers[\"" : String).data) (by decide)]
      rw [skip_name_cond zn.data hzn]
      rw [chunkOpaque_skip (("\"]" : String).data) (by decide)]
      rw [chunkOpaque_skip (("\n" : String).data) (by decide)]
      rw [chunkOpaque_skip (("    records      = \x7b\x7d" : String).data) (by decide)]
      rw [chunkOpaque_skip (("\n" : String).data) (by decide)]
      rw [chunkOpaque_skip (("  \x7d" : String).data) (by decide)]
      rw [chunkOpaque_skip (("\n" : String).data) (by decide)]
      rw [chunkOpaque_skip (("\x7d" : String).data) (by decide)]
      rw [chunkOpaque_skip (("\n" : String).data) (by decide)]
      rw [chunkOpaque_skip (("" : String).data) (by decide)]
      rw [chunkOpaque_skip (("\n" : String).data) (by decide)]
      rw [chunkOpaque_skip (("" : String).data) (by decide)]
      all_goals rfl
    | true =>
      simp only [generate_zone_output_block]
      rw [show zone_module_name s true = s ++ "_subdomain_zone" from rfl,
          show records_module_name s true = s ++ "_subdomain_zone_records" from rfl,
          if_pos trivial]
      simp only [linesGlue, List.cons_append, List.nil_append]
      repeat rw [String.data_append]
      repeat rw [List.append_assoc]
      rw [chunkOpaque_skip (("# Output " : String).data) (by decide)]
      rw [skip_name_cond zn.data hzn]
      rw [chunkOpaque_skip ((" details" : String).data) (by decide)]
      rw [chunkOpaque_skip (("\n" : String).data) (by decide)]
      rw [findOutputs_header_line (sanitize_module_name zn) (sanitize_data_ne_nil zn)
        (sanitize_no_quote zn)]
      rw [chunkOpaque_skip ((" \x7b" : String).data) (by decide)]
      rw [chunkOpaque_skip (("\n" : String).data) (by decide)]
      rw [chunkOpaque_skip (("  description = \"Details for " : String).data) (by decide)]
      rw [skip_name_cond zn.data hzn]
      rw [chunkOpaque_skip (("\"" : String).data) (by decide)]
      rw [chunkOpaque_skip (("\n" : String).data) (by decide)]
      rw [chunkOpaque_skip (("  value = \x7b" : String).data) (by decide)]
      rw [chunkOpaque_skip (("\n" : String).data) (by decide)]
      rw [chunkOpaque_skip (("    zone_id      = module." : String).data) (by decide)]
      rw [skip_name_cond s.data hs]
      rw [chunkOpaque_skip (("_subdomain_zone" : String).data) (by decide)]
      rw [chunkOpaque_skip ((".route53_zone_zone_id[\"" : String).data) (by decide)]
      rw [skip_name_cond zn.data hzn]
      rw [chunkOpaque_skip (("\"]" : String).data) (by decide)]
      rw [chunkOpaque_skip (("\n" : String).data) (by decide)]
      rw [chunkOpaque_skip (("    name_servers = module." : String).data) (by decide)]
      rw [skip_name_cond s.data hs]
      rw [chunkOpaque_skip (("_subdomain_zone" : String).data) (by decide)]
      rw [chunkOpaque_skip ((".route53_zone_name_servers[\"" : String).data) (by decide)]
      rw [skip_name_cond zn.data hzn]
      rw [chunkOpaque_skip (("\"]" : String).data) (by decide)]
      rw [chunkOpaque_skip (("\n" : String).data) (by decide)]
      rw [chunkOpaque_skip (("    records      = module." : String).data) (by decide)]
      rw [skip_name_cond s.data hs]
      rw [chunkOpaque_skip (("_subdomain_zone_records" : String).data) (by decide)]
      rw [chunkOpaque_skip ((".route53_record_name" : String).data) (by decide)]
      rw [chunkOpaque_skip (("\n" : String).data) (by decide)]
      rw [chunkOpaque_skip (("  \x7d" : String).data) (by decide)]
      rw [chunkOpaque_skip (("\n" : String).data) (by decide)]
      rw [chunkOpaque_skip (("\x7d" : String).data) (by decide)]
      rw [chunkOpaque_skip (("\n" : String).data) (by decide)]
      rw [chunkOpaque_skip (("" : String).data) (by decide)]
      rw [chunkOpaque_skip (("\n" : String).data) (by decide)]
      rw [chunkOpaque_skip (("" : String).data) (by decide)]
      all_goals rfl

/-- Scanning one combined-entry fragment captures nothing: the fragment
contains no output header. -/
theorem az_entry_scan (zn s : String) (sub rec : Bool)
    (hzn : ∀ c ∈ zn.data, isPyWs c = false ∧ c ≠ '"')
    (hs : ∀ c ∈ s.data, isPyWs c = false ∧ c ≠ '"') (k : List Char) :
    findOutputs ((all_zones_entry zn s sub rec).data ++ k) = findOutputs k := by
  cases sub with
  | false =>
    cases rec with
    | false =>
      simp only [all_zones_entry]
      rw [show zone_module_name s false = s from rfl,
          show records_module_name s false = s ++ "_records" from rfl,
          if_neg Bool.false_ne_true]
      simp only [joinLines]
      repeat rw [String.data_append]
      repeat rw [List.append_assoc]
      rw [chunkOpaque_skip (("    " : String).data) (by decide)]
      rw [skip_name_cond s.data hs]
      rw [chunkOpaque_skip ((" = \x7b" : String).data) (by decide)]
      rw [chunkOpaque_skip (("\n" : String).data) (by decide)]
      rw [chunkOpaque_skip (("      zone_id      = module." : String).data) (by decide)]
      rw [skip_name_cond s.data hs]
      rw [chunkOpaque_skip ((".route53_zone_zone_id[\"" : String).data) (by decide)]
      rw [skip_name_cond zn.data hzn]
      rw [chunkOpaque_skip (("\"]" : String).data) (by decide)]
      rw [chunkOpaque_skip (("\n" : String).data) (by decide)]
      rw [chunkOpaque_skip (("      name_servers = module." : String).data) (by decide)]
      rw [skip_name_cond s.data hs]
      rw [chunkOpaque_skip ((".route53_zone_name_servers[\"" : String).data) (by decide)]
      rw [skip_name_cond zn.data hzn]
      rw [chunkOpaque_skip (("\"]" : String).data) (by decide)]
      rw [chunkOpaque_skip (("\n" : String).data) (by decide)]
      rw [chunkOpaque_skip (("      records      = \x7b\x7d" : String).data) (by decide)]
      rw [chunkOpaque_skip (("\n" : String).data) (by decide)]
      rw [chunkOpaque_skip (("    \x7d" : String).data) (by decide)]
      all_goals rfl
    | true =>
      simp only [all_zones_entry]
      rw [show zone_module_name s false = s from rfl,
          show records_module_name s false = s ++ "_records" from rfl,
          if_pos trivial]
      simp only [joinLines]
      repeat rw [String.data_append]
      repeat rw [List.append_assoc]
      rw [chunkOpaque_skip (("    " : String).data) (by decide)]
      rw [skip_name_cond s.data hs]
      rw [chunkOpaque_skip ((" = \x7b" : String).data) (by decide)]
      rw [chunkOpaque_skip (("\n" : String).data) (by decide)]
      rw [chunkOpaque_skip (("      zone_id      = module." : String).data) (by decide)]
      rw [skip_name_cond s.data hs]
      rw [chunkOpaque_skip ((".route53_zone_zone_id[\"" : String).data) (by decide)]
      rw [skip_name_cond zn.data hzn]
      rw [chunkOpaque_skip (("\"]" : String).data) (by decide)]
      rw [chunkOpaque_skip (("\n" : String).data) (by decide)]
      rw [chunkOpaque_skip (("      name_servers = module." : String).data) (by decide)]
      rw [skip_name_cond s.data hs]
      rw [chunkOpaque_skip ((".route53_zone_name_servers[\"" : String).data) (by decide)]
      rw [skip_name_cond zn.data hzn]
      rw [chunkOpaque_skip (("\"]" : String).data) (by decide)]
      rw [chunkOpaque_skip (("\n" : String).data) (by decide)]
      rw [chunkOpaque_skip (("      records      = module." : String).data) (by decide)]
      rw [skip_name_cond s.data hs]
      rw [chunkOpaque_skip (("_records" : String).data) (by decide)]
      rw [chunkOpaque_skip ((".route53_record_name" : String).data) (by decide)]
      rw [chunkOpaque_skip (("\n" : String).data) (by decide)]
      rw [chunkOpaque_skip (("    \x7d" : String).data) (by decide)]
      all_goals rfl
  | true =>
    cases rec with
    | false =>
      simp only [all_zones_entry]
      rw [show zone_module_name s true = s ++ "_subdomain_zone" from rfl,
          show records_module_name s true = s ++ "_subdomain_zone_records" from rfl,
          if_neg Bool.false_ne_true]
      simp only [joinLines]
      repeat rw [String.data_append]
      repeat rw [List.append_assoc]
      rw [chunkOpaque_skip (("    " : String).data) (by decide)]
      rw [skip_name_cond s.data hs]
      rw [chunkOpaque_skip ((" = \x7b" : String).data) (by decide)]
      rw [chunkOpaque_skip (("\n" : String).data) (by decide)]
      rw [chunkOpaque_skip (("      zone_id      = module." : String).data) (by decide)]
      rw [skip_name_cond s.data hs]
      rw [chunkOpaque_skip (("_subdomain_zone" : String).data) (by decide)]
      rw [chunkOpaque_skip ((".route53_zone_zone_id[\"" : String).data) (by decide)]
      rw [skip_name_cond zn.data hzn]
      rw [chunkOpaque_skip (("\"]" : String).data) (by decide)]
      rw [chunkOpaque_skip (("\n" : String).data) (by decide)]
      rw [chunkOpaque_skip (("      name_servers = module." : String).data) (by decide)]
      rw [skip_name_cond s.data hs]
      rw [chunkOpaque_skip (("_subdomain_zone" : String).data) (by decide)]
      rw [chunkOpaque_skip ((".route53_zone_name_servers[\"" : String).data) (by decide)]
      rw [skip_name_cond zn.data hzn]
      rw [chunkOpaque_skip (("\"]" : String).data) (by decide)]
      rw [chunkOpaque_skip (("\n" : String).data) (by decide)]
      rw [chunkOpaque_skip (("      records      = \x7b\x7d" : String).data) (by decide)]
      rw [chunkOpaque_skip (("\n" : String).data) (by decide)]
      rw [chunkOpaque_skip (("    \x7d" : String).data) (by decide)]
      all_goals rfl
    | true =>
      simp only [all_zones_entry]
      rw [show zone_module_name s true = s ++ "_subdomain_zone" from rfl,
          show records_module_name s true = s ++ "_subdomain_zone_records" from rfl,
          if_pos trivial]
      simp only [joinLines]
      repeat rw [String.data_append]
      repeat rw [List.append_assoc]
      rw [chunkOpaque_skip (("    " : String).data) (by decide)]
      rw [skip_name_cond s.data hs]
      rw [chunkOpaque_skip ((" = \x7b" : String).data) (by decide)]
      rw [chunkOpaque_skip (("\n" : String).data) (by decide)]
      rw [chunkOpaque_skip (("      zone_id      = module." : String).data) (by decide)]
      rw [skip_name_cond s.data hs]
      rw [chunkOpaque_skip (("_subdomain_zone" : String).data) (by decide)]
      rw [chunkOpaque_skip ((".route53_zone_zone_id[\"" : String).data) (by decide)]
      rw [skip_name_cond zn.data hzn]
      rw [chunkOpaque_skip (("\"]" : String).data) (by decide)]
      rw [chunkOpaque_skip (("\n" : String).data) (by decide)]
      rw [chunkOpaque_skip (("      name_servers = module." : String).data) (by decide)]
      rw [skip_name_cond s.data hs]
      rw [chunkOpaque_skip (("_subdomain_zone" : String).data) (by decide)]
      rw [chunkOpaque_skip ((".route53_zone_name_servers[\"" : String).data) (by decide)]
      rw [skip_name_cond zn.data hzn]
      rw [chunkOpaque_skip (("\"]" : String).data) (by decide)]
      rw [chunkOpaque_skip (("\n" : String).data) (by decide)]
      rw [chunkOpaque_skip (("      records      = module." : String).data) (by decide)]
      rw [skip_name_cond s.data hs]
      rw [chunkOpaque_skip (("_subdomain_zone_records" : String).data) (by decide)]
      rw [chunkOpaque_skip ((".route53_record_name" : String).data) (by decide)]
      rw [chunkOpaque_skip (("\n" : String).data) (by decide)]
      rw [chunkOpaque_skip (("    \x7d" : String).data) (by decide)]
      all_goals rfl

theorem root_bind_ne_nil (r : ZoneInfo) (rest : List ZoneInfo) :
    (r :: rest).bind root_output_block ≠ [] := by
  intro h
  have h2 : root_output_block r ++ rest.bind root_output_block = [] := h
  have h3 := (List.append_eq_nil.mp h2).1
  simp [root_output_block] at h3

/-- Scanning the concatenated per-zone output blocks captures exactly the
sanitized names, in order. -/
theorem zones_blocks_scan (zs : List ZoneInfo)
    (h : ∀ zi ∈ zs, ∀ c ∈ zi.name.data, isPyWs c = false ∧ c ≠ '"') (k : List Char) :
    findOutputs ((linesGlue (zs.bind (fun zi =>
        generate_zone_output_block zi.name (sanitize_module_name zi.name)
          zi.is_subdomain zi.has_records ++ [""]))).data ++ k)
      = zs.map (fun zi => (sanitize_module_name zi.name).data) ++ findOutputs k := by
  induction zs with
  | nil => rfl
  | cons z rest ih =>
    rw [show (z :: rest).bind (fun zi => generate_zone_output_block zi.name
          (sanitize_module_name zi.name) zi.is_subdomain zi.has_records ++ [""])
        = (generate_zone_output_block z.name (sanitize_module_name z.name)
            z.is_subdomain z.has_records ++ [""])
          ++ rest.bind (fun zi => generate_zone_output_block zi.name
              (sanitize_module_name zi.name) zi.is_subdomain zi.has_records ++ [""])
        from rfl]
    rw [linesGlue_append, String.data_append, List.append_assoc]
    rw [zone_block_scan z.name (sanitize_module_name z.name) z.is_subdomain z.has_records
      (h z (List.mem_cons_self _ _)) (sanitize_safe z.name)]
    rw [ih (fun zi hzi => h zi (List.mem_cons_of_mem _ hzi))]
    rfl

/-- Scanning the joined combined-entry fragments captures nothing. -/
theorem az_entries_scan (zs : List ZoneInfo)
    (h : ∀ zi ∈ zs, ∀ c ∈ zi.name.data, isPyWs c = false ∧ c ≠ '"') (k : List Char) :
    findOutputs ((joinLines (zs.map (fun zi =>
        all_zones_entry zi.name (sanitize_module_name zi.name)
          zi.is_subdomain zi.has_records))).data ++ k) = findOutputs k := by
  induction zs with
  | nil => rfl
  | cons z rest ih =>
    cases rest with
    | nil =>
      exact az_entry_scan z.name (sanitize_module_name z.name) z.is_subdomain z.has_records
        (h z (List.mem_cons_self _ _)) (sanitize_safe z.name) k
    | cons r rest2 =>
      simp only [List.map_cons]
      rw [joinLines_cons_cons, String.data_append, String.data_append,
        List.append_assoc, List.append_assoc]
      rw [az_entry_scan z.name (sanitize_module_name z.name) z.is_subdomain z.has_records
        (h z (List.mem_cons_self _ _)) (sanitize_safe z.name)]
      rw [chunkOpaque_skip (("\n" : String).data) (by decide)]
      rw [show (all_zones_entry r.name (sanitize_module_name r.name) r.is_subdomain
            r.has_records
          :: rest2.map (fun zi => all_zones_entry zi.name (sanitize_module_name zi.name)
              zi.is_subdomain zi.has_records))
        = (r :: rest2).map (fun zi => all_zones_entry zi.name (sanitize_module_name zi.name)
            zi.is_subdomain zi.has_records) from rfl]
      exact ih (fun zi hzi => h zi (List.mem_cons_of_mem _ hzi))

/-- Scanning the combined-output tail of the group outputs document
captures exactly the name of the combined entry. -/
theorem zones_tail_scan (zs : List ZoneInfo)
    (h : ∀ zi ∈ zs, ∀ c ∈ zi.name.data, isPyWs c = false ∧ c ≠ '"') :
    findOutputs ((joinLines
        ["# Combined output of all zones",
         "output \"all_zones\" \x7b",
         "  description = \"Combined information for all zones\"",
         "  value = \x7b",
         joinLines (zs.map (fun zi =>
           all_zones_entry zi.name (sanitize_module_name zi.name)
             zi.is_subdomain zi.has_records)),
         "  \x7d",
         "\x7d"]).data) = [("all_zones" : String).data] := by
  have h0 : findOutputs ((joinLines
      ["# Combined output of all zones",
       "output \"all_zones\" \x7b",
       "  description = \"Combined information for all zones\"",
       "  value = \x7b",
       joinLines (zs.map (fun zi =>
         all_zones_entry zi.name (sanitize_module_name zi.name)
           zi.is_subdomain zi.has_records)),
       "  \x7d",
       "\x7d"]).data ++ []) = [("all_zones" : String).data] := by
    simp only [joinLines]
    repeat rw [String.data_append]
    repeat rw [List.append_assoc]
    rw [show ("output \"all_zones\" \x7b" : String).data
        = ("output \"" : String).data ++ (("all_zones" : String).data
          ++ ("\" \x7b" : String).data) from rfl]
    repeat rw [List.append_assoc]
    rw [chunkOpaque_skip (("# Combined output of all zones" : String).data) (by decide)]
    rw [chunkOpaque_skip (("\n" : String).data) (by decide)]
    rw [findOutputs_header_line ("all_zones" : String) (by decide) (by decide)]
    rw [chunkOpaque_skip ((" \x7b" : String).data) (by decide)]
    rw [chunkOpaque_skip (("\n" : String).data) (by decide)]
    rw [chunkOpaque_skip
      (("  description = \"Combined information for all zones\"" : String).data) (by decide)]
    rw [chunkOpaque_skip (("\n" : String).data) (by decide)]
    rw [chunkOpaque_skip (("  value = \x7b" : String).data) (by decide)]
    rw [chunkOpaque_skip (("\n" : String).data) (by decide)]
    rw [az_entries_scan zs h]
    rw [chunkOpaque_skip (("\n" : String).data) (by decide)]
    rw [chunkOpaque_skip (("  \x7d" : String).data) (by decide)]
    rw [chunkOpaque_skip (("\n" : String).data) (by decide)]
    rw [chunkOpaque_skip (("\x7d" : String).data) (by decide)]
    all_goals rfl
  rw [List.append_nil] at h0
  exact h0

/-- Scanning the freshly generated group outputs document captures the
sanitized zone names in order, then the combined entry name. -/
theorem zones_file_scan (zs : List ZoneInfo)
    (h : ∀ zi ∈ zs, ∀ c ∈ zi.name.data, isPyWs c = false ∧ c ≠ '"') :
    findOutputs (full_zones_outputs_file zs).data
      = zs.map (fun zi => (sanitize_module_name zi.name).data)
          ++ [("all_zones" : String).data] := by
  unfold full_zones_outputs_file
  rw [joinLines_append_cons, String.data_append]
  rw [zones_blocks_scan zs h]
  rw [zones_tail_scan zs h]

theorem append_details_ne_nil (x : String) : (x ++ "_details").data ≠ [] := by
  rw [String.data_append]
  intro h
  have h2 := (List.append_eq_nil.mp h).2
  exact absurd h2 (by decide)

theorem append_details_no_quote (x : String) (hx : ∀ c ∈ x.data, c ≠ '"') :
    ∀ c ∈ (x ++ "_details").data, c ≠ '"' := by
  intro c hc
  rw [String.data_append] at hc
  rcases List.mem_append.mp hc with h | h
  · exact hx c h
  · exact (by decide : ∀ y ∈ ("_details" : String).data, y ≠ '"') c h

/-- Scanning one root output block (joined form, trailing blank line but
no trailing newline) captures exactly the derived output name. -/
theorem root_block_core (zi : ZoneInfo)
    (hn : ∀ c ∈ zi.name.data, isPyWs c = false ∧ c ≠ '"') (k : List Char) :
    findOutputs ((joinLines (root_output_block zi)).data ++ k)
      = (sanitize_module_name zi.name ++ "_details").data :: findOutputs k := by
  simp only [root_output_block, joinLines]
  repeat rw [String.data_append]
  repeat rw [List.append_assoc]
  rw [show ("_details\" \x7b" : String).data
      = ("_details" : String).data ++ ("\" \x7b" : String).data from rfl]
  repeat rw [List.append_assoc]
  rw [← List.append_assoc (sanitize_module_name zi.name).data (("_details" : String).data)]
  rw [← String.data_append (sanitize_module_name zi.name) "_details"]
  rw [findOutputs_header_line (sanitize_module_name zi.name ++ "_details")
    (append_details_ne_nil _) (append_details_no_quote _ (sanitize_no_quote zi.name))]
  rw [chunkOpaque_skip ((" \x7b" : String).data) (by decide)]
  rw [chunkOpaque_skip (("\n" : String).data) (by decide)]
  rw [chunkOpaque_skip (("  description = \"Details for " : String).data) (by decide)]
  rw [skip_name_cond zi.name.data hn]
  rw [chunkOpaque_skip (("\"" : String).data) (by decide)]
  rw [chunkOpaque_skip (("\n" : String).data) (by decide)]
  rw [chunkOpaque_skip (("  value = module.zones." : String).data) (by decide)]
  rw [skip_name_cond (sanitize_module_name zi.name).data (sanitize_safe zi.name)]
  rw [chunkOpaque_skip (("\n" : String).data) (by decide)]
  rw [chunkOpaque_skip (("\x7d" : String).data) (by decide)]
  rw [chunkOpaque_skip (("\n" : String).data) (by decide)]
  rw [chunkOpaque_skip (("" : String).data) (by decide)]
  all_goals rfl

/-- Scanning one root output block in glued form (every line followed by
a newline) captures exactly the derived output name. -/
theorem root_block_glue (zi : ZoneInfo)
    (hn : ∀ c ∈ zi.name.data, isPyWs c = false ∧ c ≠ '"') (k : List Char) :
    findOutputs ((linesGlue (root_output_block zi)).data ++ k)
      = (sanitize_module_name zi.name ++ "_details").data :: findOutputs k := by
  simp only [root_output_block, linesGlue]
  repeat rw [String.data_append]
  repeat rw [List.append_assoc]
  rw [show ("_details\" \x7b" : String).data
      = ("_details" : String).data ++ ("\" \x7b" : String).data from rfl]
  repeat rw [List.append_assoc]
  rw [← List.append_assoc (sanitize_module_name zi.name).data (("_details" : String).data)]
  rw [← String.data_append (sanitize_module_name zi.name) "_details"]
  rw [findOutputs_header_line (sanitize_module_name zi.name ++ "_details")
    (append_details_ne_nil _) (append_details_no_quote _ (sanitize_no_quote zi.name))]
  rw [chunkOpaque_skip ((" \x7b" : String).data) (by decide)]
  rw [chunkOpaque_skip (("\n" : String).data) (by decide)]
  rw [chunkOpaque_skip (("  description = \"Details for " : String).data) (by decide)]
  rw [skip_name_cond zi.name.data hn]
  rw [chunkOpaque_skip (("\"" : String).data) (by decide)]
  rw [chunkOpaque_skip (("\n" : String).data) (by decide)]
  rw [chunkOpaque_skip (("  value = module.zones." : String).data) (by decide)]
  rw [skip_name_cond (sanitize_module_name zi.name).data (sanitize_safe zi.name)]
  rw [chunkOpaque_skip (("\n" : String).data) (by decide)]
  rw [chunkOpaque_skip (("\x7d" : String).data) (by decide)]
  rw [chunkOpaque_skip (("\n" : String).data) (by decide)]
  rw [chunkOpaque_skip (("" : String).data) (by decide)]
  rw [chunkOpaque_skip (("\n" : String).data) (by decide)]
  rw [chunkOpaque_skip (("" : String).data) (by decide)]
  all_goals rfl

/-- Scanning the concatenated root output blocks captures exactly the
derived output names, in order. -/
theorem root_blocks_scan (zs : List ZoneInfo)
    (h : ∀ zi ∈ zs, ∀ c ∈ zi.name.data, isPyWs c = false ∧ c ≠ '"') (k : List Char) :
    findOutputs ((joinLines (zs.bind root_output_block)).data ++ k)
      = zs.map (fun zi => (sanitize_module_name zi.name ++ "_details").data)
          ++ findOutputs k := by
  induction zs with
  | nil => rfl
  | cons z rest ih =>
    cases rest with
    | nil => exact root_block_core z (h z (List.mem_cons_self _ _)) k
    | cons r rest2 =>
      rw [show (z :: r :: rest2).bind root_output_block
          = root_output_block z ++ (r :: rest2).bind root_output_block from rfl]
      rw [joinLines_append (root_output_block z) ((r :: rest2).bind root_output_block)
        (root_bind_ne_nil r rest2)]
      rw [String.data_append, List.append_assoc]
      rw [root_block_glue z (h z (List.mem_cons_self _ _))]
      rw [ih (fun zi hzi => h zi (List.mem_cons_of_mem _ hzi))]
      rfl

/-- Scanning the root outputs document produced from the absent-file
bootstrap captures the bootstrap name and then the derived names. -/
theorem root_file_scan (zs : List ZoneInfo)
    (h : ∀ zi ∈ zs, ∀ c ∈ zi.name.data, isPyWs c = false ∧ c ≠ '"') :
    findOutputs (pyRstrip root_bootstrap ++ "\n\n"
        ++ joinLines (zs.bind root_output_block)).data
      = ("zones" : String).data
        :: zs.map (fun zi => (sanitize_module_name zi.name ++ "_details").data) := by
  have h0 : findOutputs ((pyRstrip root_bootstrap ++ "\n\n"
      ++ joinLines (zs.bind root_output_block)).data ++ [])
      = ("zones" : String).data
        :: zs.map (fun zi => (sanitize_module_name zi.name ++ "_details").data) := by
    rw [String.data_append, String.data_append]
    rw [show (pyRstrip root_bootstrap).data
        = ("output \"" : String).data ++ (("zones" : String).data
          ++ ("\" \x7b" : String).data
          ++ ("\n  description = \"All Route53 zone information\"\n  value = module.zones.all_zones\n\x7d" : String).data) from rfl]
    repeat rw [List.append_assoc]
    rw [findOutputs_header_line ("zones" : String) (by decide) (by decide)]
    rw [chunkOpaque_skip ((" \x7b" : String).data) (by decide)]
    rw [chunkOpaque_skip
      (("\n  description = \"All Route53 zone information\"\n  value = module.zones.all_zones\n\x7d" : String).data)
      (by decide)]
    rw [chunkOpaque_skip (("\n\n" : String).data) (by decide)]
    rw [root_blocks_scan zs h]
    rw [show findOutputs ([] : List Char) = [] from rfl, List.append_nil]
  rw [List.append_nil] at h0
  exact h0

theorem filterMap_all_some {α β : Type} (f : α → Option β) (g : α → β) :
    ∀ (l : List α), (∀ a ∈ l, f a = some (g a)) → l.filterMap f = l.map g := by
  intro l
  induction l with
  | nil => intro _; rfl
  | cons a t ih =>
    intro hmem
    have hfa := hmem a (List.mem_cons_self _ _)
    rw [List.filterMap_cons, hfa]
    show g a :: t.filterMap f = (a :: t).map g
    rw [ih (fun b hb => hmem b (List.mem_cons_of_mem _ hb))]
    rfl

theorem parse_zones_full (zs : List ZoneInfo)
    (h : ∀ zi ∈ zs, ∀ c ∈ zi.name.data, isPyWs c = false ∧ c ≠ '"')
    (haz : ∀ zi ∈ zs, sanitize_module_name zi.name ≠ "all_zones") :
    parse_zones_output_names (full_zones_outputs_file zs)
      = zs.map (fun zi => sanitize_module_name zi.name) := by
  unfold parse_zones_output_names
  rw [zones_file_scan zs h]
  rw [List.filterMap_append]
  rw [filterMap_all_some _ (fun cap => (⟨cap⟩ : String))
    (zs.map (fun zi => (sanitize_module_name zi.name).data)) ?hsome]
  case hsome =>
    intro a ha
    obtain ⟨zi, hzi, rfl⟩ := List.mem_map.mp ha
    rw [if_pos]
    exact haz zi hzi
  rw [show List.filterMap (fun cap => if (⟨cap⟩ : String) ≠ "all_zones"
      then some (⟨cap⟩ : String) else none) [("all_zones" : String).data] = [] from by decide]
  rw [List.append_nil, List.map_map]
  rfl

theorem parse_root_full (zs : List ZoneInfo)
    (h : ∀ zi ∈ zs, ∀ c ∈ zi.name.data, isPyWs c = false ∧ c ≠ '"') :
    parse_root_output_names (pyRstrip root_bootstrap ++ "\n\n"
        ++ joinLines (zs.bind root_output_block))
      = "zones" :: zs.map (fun zi => sanitize_module_name zi.name ++ "_details") := by
  unfold parse_root_output_names
  rw [root_file_scan zs h]
  rw [List.map_cons, List.map_map]
  rfl

theorem update_zones_none_iff (existing : String) (processed : List ZoneInfo)
    (hne : processed ≠ []) :
    update_zones_outputs_file (some existing) processed = none ↔
      processed.filter (fun zi => sanitize_module_name zi.name
        ∉ parse_zones_output_names existing) = [] := by
  unfold update_zones_outputs_file
  rw [if_neg hne]
  dsimp only
  rw [Option.getD_some]
  by_cases hf : processed.filter (fun zi => sanitize_module_name zi.name
      ∉ parse_zones_output_names existing) = []
  · rw [if_pos hf]
    exact iff_of_true rfl hf
  · rw [if_neg hf]
    exact iff_of_false (by simp) hf

theorem update_root_none_iff (existing : String) (processed : List ZoneInfo)
    (hne : processed ≠ []) :
    update_root_outputs_file (some existing) processed = none ↔
      processed.filter (fun zi => (sanitize_module_name zi.name ++ "_details")
        ∉ parse_root_output_names existing) = [] := by
  unfold update_root_outputs_file
  rw [if_neg hne]
  dsimp only
  rw [Option.getD_some]
  by_cases hf : processed.filter (fun zi => (sanitize_module_name zi.name ++ "_details")
      ∉ parse_root_output_names existing) = []
  · rw [if_pos hf]
    exact iff_of_true rfl hf
  · rw [if_neg hf]
    exact iff_of_false (by simp) hf

theorem update_zones_scratch (processed : List ZoneInfo) (hne : processed ≠ []) :
    update_zones_outputs_file none processed
      = some (full_zones_outputs_file processed) := by
  unfold update_zones_outputs_file
  rw [if_neg hne]
  dsimp only
  rw [Option.getD_none]
  rw [show parse_zones_output_names "" = ([] : List String) from rfl]
  rw [show processed.filter (fun zi => sanitize_module_name zi.name ∉ ([] : List String))
      = processed from List.filter_eq_self.mpr (fun a _ => by simp)]
  rw [if_neg hne, if_pos rfl]

theorem update_root_scratch (processed : List ZoneInfo) (hne : processed ≠ []) :
    update_root_outputs_file none processed
      = some (pyRstrip root_bootstrap ++ "\n\n"
          ++ joinLines (processed.bind root_output_block)) := by
  unfold update_root_outputs_file
  rw [if_neg hne]
  dsimp only
  rw [Option.getD_none]
  rw [show parse_root_output_names "" = ([] : List String) from rfl]
  rw [show processed.filter (fun zi => (sanitize_module_name zi.name ++ "_details")
        ∉ ([] : List String))
      = processed from List.filter_eq_self.mpr (fun a _ => by simp)]
  rw [if_neg hne]

theorem update_zones_second (processed : List ZoneInfo) (hne : processed ≠ [])
    (hnm : ∀ zi ∈ processed, ∀ c ∈ zi.name.data, isPyWs c = false ∧ c ≠ '"')
    (haz : ∀ zi ∈ processed, sanitize_module_name zi.name ≠ "all_zones") :
    update_zones_outputs_file (some (full_zones_outputs_file processed)) processed
      = none := by
  rw [update_zones_none_iff _ _ hne]
  rw [parse_zones_full processed hnm haz]
  rw [List.filter_eq_nil]
  intro a ha
  simp only [decide_eq_true_eq, not_not]
  exact List.mem_map_of_mem _ ha

theorem update_root_second (processed : List ZoneInfo) (hne : processed ≠ [])
    (hnm : ∀ zi ∈ processed, ∀ c ∈ zi.name.data, isPyWs c = false ∧ c ≠ '"') :
    update_root_outputs_file
        (some (pyRstrip root_bootstrap ++ "\n\n"
          ++ joinLines (processed.bind root_output_block))) processed
      = none := by
  rw [update_root_none_iff _ _ hne]
  rw [parse_root_full processed hnm]
  rw [List.filter_eq_nil]
  intro a ha
  simp only [decide_eq_true_eq, not_not]
  exact List.mem_cons_of_mem _ (List.mem_map_of_mem _ ha)

/-- C2: the aggregate-merge update excludes every processed zone whose
sanitized name (or derived root output name) is already represented in
the document, and rewrites the document exactly when some zone is not
yet represented; starting from an absent file, the first run writes the
freshly generated document and a second run with the same processed-zone
set performs no rewrite at all, for both the group outputs document and
the root outputs document.  This holds for zone names free of whitespace
and quote characters whose sanitized name is not the reserved combined
name; the claimed unconditional byte-level idempotence from arbitrary
pre-existing documents is refuted by `C2_counterexample`. -/
theorem C2_merge_idempotent (processed : List ZoneInfo) (existing : String)
    (hne : processed ≠ [])
    (hnm : ∀ zi ∈ processed, ∀ c ∈ zi.name.data, isPyWs c = false ∧ c ≠ '"')
    (haz : ∀ zi ∈ processed, sanitize_module_name zi.name ≠ "all_zones") :
    (update_zones_outputs_file (some existing) processed = none ↔
      processed.filter (fun zi => sanitize_module_name zi.name
        ∉ parse_zones_output_names existing) = []) ∧
    (update_root_outputs_file (some existing) processed = none ↔
      processed.filter (fun zi => (sanitize_module_name zi.name ++ "_details")
        ∉ parse_root_output_names existing) = []) ∧
    update_zones_outputs_file none processed
      = some (full_zones_outputs_file processed) ∧
    update_zones_outputs_file (some (full_zones_outputs_file processed)) processed
      = none ∧
    update_root_outputs_file none processed
      = some (pyRstrip root_bootstrap ++ "\n\n"
          ++ joinLines (processed.bind root_output_block)) ∧
    update_root_outputs_file
        (some (pyRstrip root_bootstrap ++ "\n\n"
          ++ joinLines (processed.bind root_output_block))) processed
      = none :=
  ⟨update_zones_none_iff existing processed hne,
   update_root_none_iff existing processed hne,
   update_zones_scratch processed hne,
   update_zones_second processed hne hnm haz,
   update_root_scratch processed hne,
   update_root_second processed hne hnm⟩

set_option maxRecDepth 10000 in
theorem C2_merge_idempotent_witness :
    (([(⟨"example.com", "Z1", false, true, true⟩ : ZoneInfo)] : List ZoneInfo) ≠ []) ∧
    (∀ zi ∈ ([(⟨"example.com", "Z1", false, true, true⟩ : ZoneInfo)] : List ZoneInfo),
      ∀ c ∈ zi.name.data, isPyWs c = false ∧ c ≠ '"') ∧
    (∀ zi ∈ ([(⟨"example.com", "Z1", false, true, true⟩ : ZoneInfo)] : List ZoneInfo),
      sanitize_module_name zi.name ≠ "all_zones") ∧
    ((update_zones_outputs_file (some "") [(⟨"example.com", "Z1", false, true, true⟩ : ZoneInfo)] = none ↔
      ([(⟨"example.com", "Z1", false, true, true⟩ : ZoneInfo)] : List ZoneInfo).filter (fun zi => sanitize_module_name zi.name
        ∉ parse_zones_output_names "") = []) ∧
    (update_root_outputs_file (some "") [(⟨"example.com", "Z1", false, true, true⟩ : ZoneInfo)] = none ↔
      ([(⟨"example.com", "Z1", false, true, true⟩ : ZoneInfo)] : List ZoneInfo).filter (fun zi =>
        (sanitize_module_name zi.name ++ "_details")
        ∉ parse_root_output_names "") = []) ∧
    update_zones_outputs_file none [(⟨"example.com", "Z1", false, true, true⟩ : ZoneInfo)]
      = some (full_zones_outputs_file [(⟨"example.com", "Z1", false, true, true⟩ : ZoneInfo)]) ∧
    update_zones_outputs_file (some (full_zones_outputs_file [(⟨"example.com", "Z1", false, true, true⟩ : ZoneInfo)])) [(⟨"example.com", "Z1", false, true, true⟩ : ZoneInfo)]
      = none ∧
    update_root_outputs_file none [(⟨"example.com", "Z1", false, true, true⟩ : ZoneInfo)]
      = some (pyRstrip root_bootstrap ++ "\n\n"
          ++ joinLines (([(⟨"example.com", "Z1", false, true, true⟩ : ZoneInfo)] : List ZoneInfo).bind root_output_block)) ∧
    update_root_outputs_file
        (some (pyRstrip root_bootstrap ++ "\n\n"
          ++ joinLines (([(⟨"example.com", "Z1", false, true, true⟩ : ZoneInfo)] : List ZoneInfo).bind root_output_block))) [(⟨"example.com", "Z1", false, true, true⟩ : ZoneInfo)]
      = none) :=
  ⟨by decide, by decide, by decide,
   C2_merge_idempotent [(⟨"example.com", "Z1", false, true, true⟩ : ZoneInfo)] "" (by decide) (by decide) (by decide)⟩

theorem filter_nonws_dropWhile (l : List Char) :
    (l.dropWhile isPyWs).filter (fun c => !(isPyWs c))
      = l.filter (fun c => !(isPyWs c)) := by
  induction l with
  | nil => rfl
  | cons c t ih =>
    by_cases h : isPyWs c = true
    · rw [List.dropWhile_cons_of_pos h, ih, List.filter_cons, h]
      simp
    · rw [List.dropWhile_cons_of_neg h]

theorem filter_nonws_rstrip (s : String) :
    (pyRstrip s).data.filter (fun c => !(isPyWs c))
      = s.data.filter (fun c => !(isPyWs c)) := by
  show ((s.data.reverse.dropWhile isPyWs).reverse).filter (fun c => !(isPyWs c)) = _
  rw [List.filter_reverse, filter_nonws_dropWhile, List.filter_reverse,
    List.reverse_reverse]

theorem filter_nonws_sublist_rstrip (x : String) :
    List.Sublist (x.data.filter (fun c => !(isPyWs c))) (pyRstrip x).data := by
  rw [← filter_nonws_rstrip x]
  exact List.filter_sublist _

theorem strInsertAt_sublist (s : String) (k : Nat) (t : String) :
    List.Sublist s.data (strInsertAt s k t).data := by
  show List.Sublist s.data (s.data.take k ++ t.data ++ s.data.drop k)
  rw [List.append_assoc]
  have h1 : List.Sublist (s.data.take k ++ s.data.drop k)
      (s.data.take k ++ (t.data ++ s.data.drop k)) :=
    (List.sublist_append_right t.data (s.data.drop k)).append_left (s.data.take k)
  rw [List.take_append_drop] at h1
  exact h1

theorem foldl_insert_sublist (pos : Nat) (entries : List String) :
    ∀ (sec : String), List.Sublist sec.data
      (entries.foldl (fun sec entry => strInsertAt sec pos (entry ++ "\n")) sec).data := by
  induction entries with
  | nil => intro sec; exact List.Sublist.refl _
  | cons e es ih =>
    intro sec
    exact (strInsertAt_sublist sec pos (e ++ "\n")).trans
      (ih (strInsertAt sec pos (e ++ "\n")))

/-- C3: the aggregate-merge update never removes or reorders
non-whitespace content: every non-whitespace character of the input
document appears, in order, in the output document of both the group
outputs update and the root outputs update.  (The claimed stronger
invariant that every existing named entry survives unmodified is refuted
by `C3_counterexample`: the fragment splice can land inside a trailing
entry.) -/
theorem C3_merge_preserves_content (existing : String) (processed : List ZoneInfo)
    (D E : String)
    (hz : update_zones_outputs_file (some existing) processed = some D)
    (hr : update_root_outputs_file (some existing) processed = some E) :
    List.Sublist (existing.data.filter (fun c => !(isPyWs c))) D.data ∧
    List.Sublist (existing.data.filter (fun c => !(isPyWs c))) E.data := by
  constructor
  · unfold update_zones_outputs_file at hz
    by_cases hp : processed = []
    · rw [if_pos hp] at hz
      exact Option.noConfusion hz
    rw [if_neg hp] at hz
    dsimp only at hz
    rw [Option.getD_some] at hz
    by_cases hf : processed.filter (fun zi => sanitize_module_name zi.name
        ∉ parse_zones_output_names existing) = []
    · rw [if_pos hf] at hz
      exact Option.noConfusion hz
    rw [if_neg hf] at hz
    have hD := Option.some.inj hz
    subst hD
    by_cases he : existing = ""
    · subst he
      exact List.nil_sublist _
    rw [if_neg he]
    by_cases hpos : pyFind existing "output \"all_zones\"" > 0
    · rw [if_pos hpos]
      have hsplit : existing.data.filter (fun c => !(isPyWs c))
          = ((existing.data.take (pyFind existing "output \"all_zones\"").toNat).filter
              (fun c => !(isPyWs c)))
            ++ ((existing.data.drop (pyFind existing "output \"all_zones\"").toNat).filter
              (fun c => !(isPyWs c))) := by
        rw [← List.filter_append, List.take_append_drop]
      rw [hsplit, String.data_append, String.data_append]
      refine List.Sublist.append ?h1 ?h2
      · exact (filter_nonws_sublist_rstrip
          (strTake existing (pyFind existing "output \"all_zones\"").toNat)).trans
          (List.sublist_append_left _ _)
      · by_cases hv : pyRfind
            (strDrop existing (pyFind existing "output \"all_zones\"").toNat) "  \x7d" > 0
        · rw [if_pos hv]
          exact (List.filter_sublist _).trans (foldl_insert_sublist _ _ _)
        · rw [if_neg hv]
          exact List.filter_sublist _
    · rw [if_neg hpos]
      rw [String.data_append, String.data_append]
      exact (filter_nonws_sublist_rstrip existing).trans
        ((List.sublist_append_left _ _).trans (List.sublist_append_left _ _))
  · unfold update_root_outputs_file at hr
    by_cases hp : processed = []
    · rw [if_pos hp] at hr
      exact Option.noConfusion hr
    rw [if_neg hp] at hr
    dsimp only at hr
    rw [Option.getD_some] at hr
    by_cases hf : processed.filter (fun zi => (sanitize_module_name zi.name ++ "_details")
        ∉ parse_root_output_names existing) = []
    · rw [if_pos hf] at hr
      exact Option.noConfusion hr
    rw [if_neg hf] at hr
    have hE := Option.some.inj hr
    subst hE
    rw [String.data_append, String.data_append]
    exact (filter_nonws_sublist_rstrip existing).trans
      ((List.sublist_append_left _ _).trans (List.sublist_append_left _ _))

set_option maxRecDepth 10000 in
theorem C3_merge_preserves_content_witness :
    (update_zones_outputs_file (some "# x")
        [(⟨"example.com", "Z1", false, true, true⟩ : ZoneInfo)]
      = some ((update_zones_outputs_file (some "# x")
          [(⟨"example.com", "Z1", false, true, true⟩ : ZoneInfo)]).getD "")) ∧
    (update_root_outputs_file (some "# x")
        [(⟨"example.com", "Z1", false, true, true⟩ : ZoneInfo)]
      = some ((update_root_outputs_file (some "# x")
          [(⟨"example.com", "Z1", false, true, true⟩ : ZoneInfo)]).getD "")) ∧
    (List.Sublist (("# x" : String).data.filter (fun c => !(isPyWs c)))
        ((update_zones_outputs_file (some "# x")
          [(⟨"example.com", "Z1", false, true, true⟩ : ZoneInfo)]).getD "").data ∧
     List.Sublist (("# x" : String).data.filter (fun c => !(isPyWs c)))
        ((update_root_outputs_file (some "# x")
          [(⟨"example.com", "Z1", false, true, true⟩ : ZoneInfo)]).getD "").data) :=
  ⟨by decide, by decide,
   C3_merge_preserves_content "# x"
     [(⟨"example.com", "Z1", false, true, true⟩ : ZoneInfo)] _ _
     (by decide) (by decide)⟩

end R53
